import Mathlib

/-!
# Product Alert API (`src/index.js`)

A shallow embedding of the Express service of `src/index.js` and proofs about it.

* The `Date` operations the scan handler calls (`new Date()`, `getDate`, `setDate`,
  `getFullYear`, `getMonth`) are embedded after the ECMAScript time-value algorithms
  (`Day`, `TimeWithinDay`, `DayFromYear`, `YearFromTime`, `MonthFromTime`, `DateFromTime`,
  `MakeDay`, `MakeDate`, `TimeClip`).  Time values are integers (milliseconds since the
  epoch); every quantity that occurs is far below `2^53`, so the double arithmetic of the
  runtime is exact on them.
* A JavaScript number is carried as the pair of its text and its truthiness (`JNumber`),
  the two things the handlers observe of it.
* The data-store client and the email client are external collaborators.  Handlers are
  functions of a client record, so theorems quantify over every behaviour of the clients;
  an in-memory table (`memClients`) is used where a claim speaks of a store that is a
  collection of rows.
-/

namespace AppValidade

/-! ## ECMAScript time values -/

/-- Milliseconds per day. -/
def msPerDay : Int := 86400000

/-- `Day(t) = floor(t / msPerDay)`. -/
def Day (t : Int) : Int := t / msPerDay

/-- `TimeWithinDay(t) = t modulo msPerDay`. -/
def TimeWithinDay (t : Int) : Int := t % msPerDay

/-- `DaysInYear(y)`. -/
def DaysInYear (y : Int) : Int :=
  if y % 4 ≠ 0 then 365
  else if y % 100 ≠ 0 then 366
  else if y % 400 ≠ 0 then 365
  else 366

/-- `DayFromYear(y)`: the day number of the first day of year `y`. -/
def DayFromYear (y : Int) : Int :=
  365 * (y - 1970) + (y - 1969) / 4 - (y - 1901) / 100 + (y - 1601) / 400

/-- `TimeFromYear(y) = msPerDay * DayFromYear(y)`. -/
def TimeFromYear (y : Int) : Int := msPerDay * DayFromYear y

/-- Upward search for the year of `t`, starting at a year that begins no later than `t`. -/
def yearSearch (t : Int) : Nat → Int → Int
  | 0, y => y
  | fuel + 1, y => if t < TimeFromYear (y + 1) then y else yearSearch t fuel (y + 1)

/-- `YearFromTime(t)`: the largest integer `y` such that `TimeFromYear(y) ≤ t`
(see `YearFromTime_spec`, `YearFromTime_unique`).  The search starts at the beginning of
the 400-year cycle (146097 days) that contains `t`. -/
def YearFromTime (t : Int) : Int :=
  yearSearch t 400 (1970 + 400 * (t / (146097 * msPerDay)))

/-- `DayWithinYear(t) = Day(t) - DayFromYear(YearFromTime(t))`. -/
def DayWithinYear (t : Int) : Int := Day t - DayFromYear (YearFromTime t)

/-- `InLeapYear(t)`: `0` in a 365-day year, `1` in a 366-day year. -/
def InLeapYear (t : Int) : Int := if DaysInYear (YearFromTime t) = 365 then 0 else 1

/-- The month table of `MonthFromTime`, on the day within the year and the leap flag. -/
def monthOfDay (d l : Int) : Int :=
  if d < 31 then 0
  else if d < 59 + l then 1
  else if d < 90 + l then 2
  else if d < 120 + l then 3
  else if d < 151 + l then 4
  else if d < 181 + l then 5
  else if d < 212 + l then 6
  else if d < 243 + l then 7
  else if d < 273 + l then 8
  else if d < 304 + l then 9
  else if d < 334 + l then 10
  else 11

/-- `MonthFromTime(t)`: the 0-based month. -/
def MonthFromTime (t : Int) : Int := monthOfDay (DayWithinYear t) (InLeapYear t)

/-- The date table of `DateFromTime`, on the month, the day within the year and the leap flag. -/
def dateOfDay (m d l : Int) : Int :=
  if m = 0 then d + 1
  else if m = 1 then d - 30
  else if m = 2 then d - 58 - l
  else if m = 3 then d - 89 - l
  else if m = 4 then d - 119 - l
  else if m = 5 then d - 150 - l
  else if m = 6 then d - 180 - l
  else if m = 7 then d - 211 - l
  else if m = 8 then d - 242 - l
  else if m = 9 then d - 272 - l
  else if m = 10 then d - 303 - l
  else d - 333 - l

/-- `DateFromTime(t)`: the day of the month, from 1. -/
def DateFromTime (t : Int) : Int :=
  dateOfDay (MonthFromTime t) (DayWithinYear t) (InLeapYear t)

/-- Day within the year of the first day of 0-based month `mn`, for leap flag `l`. -/
def monthStart (mn l : Int) : Int :=
  if mn = 0 then 0
  else if mn = 1 then 31
  else if mn = 2 then 59 + l
  else if mn = 3 then 90 + l
  else if mn = 4 then 120 + l
  else if mn = 5 then 151 + l
  else if mn = 6 then 181 + l
  else if mn = 7 then 212 + l
  else if mn = 8 then 243 + l
  else if mn = 9 then 273 + l
  else if mn = 10 then 304 + l
  else 334 + l

/-- `MakeDay(year, month, date)`: with `ym = year + floor(month / 12)` and
`mn = month modulo 12`, the day number of the first day of month `mn` of year `ym`
(the `t` with `YearFromTime(t) = ym`, `MonthFromTime(t) = mn`, `DateFromTime(t) = 1`, see
`MakeDay_first`) plus `date - 1`. -/
def MakeDay (year month date : Int) : Int :=
  let ym := year + month / 12
  let mn := month % 12
  DayFromYear ym + monthStart mn (if DaysInYear ym = 365 then 0 else 1) + date - 1

/-- `MakeDate(day, time) = day * msPerDay + time`. -/
def MakeDate (day time : Int) : Int := day * msPerDay + time

/-- `TimeClip(time)`: `none` stands for `NaN`, returned when `|time| > 8.64e15`. -/
def TimeClip (time : Int) : Option Int :=
  if 8640000000000000 < |time| then none else some time

/-- The host's `LocalTZA(t, isUTC)`: the offset of local time from UTC in milliseconds,
at the UTC time value `t` when `isUTC` is true and at the local time value `t` otherwise. -/
abbrev LocalTZA := Int → Bool → Int

/-- `LocalTime(t) = t + LocalTZA(t, true)`. -/
def LocalTime (tza : LocalTZA) (t : Int) : Int := t + tza t true

/-- `UTC(t) = t - LocalTZA(t, false)`. -/
def UTC (tza : LocalTZA) (t : Int) : Int := t - tza t false

/-- A `Date` object: its time value, `none` for `NaN` (an invalid date). -/
abbrev JSDate := Option Int

/-- `Date.prototype.getFullYear()`; `none` is `NaN`. -/
def getFullYear (tza : LocalTZA) (d : JSDate) : Option Int :=
  d.map fun t => YearFromTime (LocalTime tza t)

/-- `Date.prototype.getMonth()`; `none` is `NaN`. -/
def getMonth (tza : LocalTZA) (d : JSDate) : Option Int :=
  d.map fun t => MonthFromTime (LocalTime tza t)

/-- `Date.prototype.getDate()`; `none` is `NaN`. -/
def getDate (tza : LocalTZA) (d : JSDate) : Option Int :=
  d.map fun t => DateFromTime (LocalTime tza t)

/-- `Date.prototype.setDate(date)`: the new time value of the object.  With
`t = LocalTime(thisTime)` it is
`TimeClip(UTC(MakeDate(MakeDay(YearFromTime(t), MonthFromTime(t), date), TimeWithinDay(t))))`;
a `NaN` time value or argument gives `NaN`. -/
def setDate (tza : LocalTZA) (d : JSDate) (date : Option Int) : JSDate :=
  match d, date with
  | some tv, some dt =>
      let t := LocalTime tza tv
      let newDate := MakeDate (MakeDay (YearFromTime t) (MonthFromTime t) dt) (TimeWithinDay t)
      TimeClip (UTC tza newDate)
  | _, _ => none

/-! ## Strings -/

/-- `String(n)` for a number that is an integer (below `10^21` in magnitude) or `NaN`. -/
def numToString : Option Int → String
  | some n => toString n
  | none => "NaN"

/-- `String.prototype.padStart(targetLength, fillString)`. -/
def padStart (s : String) (targetLength : Nat) (fillString : String) : String :=
  if targetLength ≤ s.length ∨ fillString = "" then s
  else
    let fillLen := targetLength - s.length
    String.mk ((List.replicate fillLen fillString.data).flatten.take fillLen) ++ s

/-! ## The target date of the scan (`src/index.js`, lines 38-48) -/

/-- `dataAlvo` after `dataAlvo.setDate(hoje.getDate() + 7)`, for the clock reading `now`. -/
def dataAlvo (tza : LocalTZA) (now : Int) : JSDate :=
  let hoje : JSDate := some now
  let dataAlvo : JSDate := hoje
  setDate tza dataAlvo ((getDate tza hoje).map (· + 7))

/-- `dataAlvoString`: the target date formatted by hand as year, month and day. -/
def dataAlvoString (tza : LocalTZA) (now : Int) : String :=
  let dataAlvo := dataAlvo tza now
  let ano := getFullYear tza dataAlvo
  let mes := padStart (numToString ((getMonth tza dataAlvo).map (· + 1))) 2 "0"
  let dia := padStart (numToString (getDate tza dataAlvo)) 2 "0"
  numToString ano ++ "-" ++ mes ++ "-" ++ dia

/-! ## The civil calendar (what "the calendar date 7 days later" means) -/

/-- A calendar date: year, 1-based month, day of the month. -/
structure CivilDate where
  year : Int
  month : Int
  day : Int
  deriving DecidableEq, Repr

/-- Gregorian leap years. -/
def isLeapYear (y : Int) : Bool :=
  decide (y % 4 = 0) && (decide (y % 100 ≠ 0) || decide (y % 400 = 0))

/-- Number of days of month `m` (1 to 12) of year `y`. -/
def daysInMonth (y m : Int) : Int :=
  if m = 2 then (if isLeapYear y then 29 else 28)
  else if m = 4 ∨ m = 6 ∨ m = 9 ∨ m = 11 then 30
  else 31

/-- The calendar date following `c`. -/
def nextDay (c : CivilDate) : CivilDate :=
  if c.day < daysInMonth c.year c.month then { c with day := c.day + 1 }
  else if c.month < 12 then { c with month := c.month + 1, day := 1 }
  else { year := c.year + 1, month := 1, day := 1 }

/-- The calendar date `n` days after `c`. -/
def addDays : Nat → CivilDate → CivilDate
  | 0, c => c
  | n + 1, c => addDays n (nextDay c)

/-- Zero-padding of a month or day number to 2 digits. -/
def pad2 (n : Int) : String := if n < 10 then "0" ++ toString n else toString n

/-- Zero-padding of a year number to 4 digits (years from 0 to 9999; no other year has a
4-digit text, and it is left in decimal). -/
def pad4 (y : Int) : String :=
  if y < 0 then toString y
  else if y < 10 then "000" ++ toString y
  else if y < 100 then "00" ++ toString y
  else if y < 1000 then "0" ++ toString y
  else toString y

/-- The text `YYYY-MM-DD` of a calendar date: the year on 4 digits, then month and day
zero-padded to 2 digits. -/
def renderDate (c : CivilDate) : String :=
  pad4 c.year ++ "-" ++ pad2 c.month ++ "-" ++ pad2 c.day

/-- The calendar date of a local time value: its year, 1-based month and day. -/
def civilOfTime (t : Int) : CivilDate :=
  { year := YearFromTime t, month := MonthFromTime t + 1, day := DateFromTime t }

/-- Today's date on the server: the local year, 1-based month and day of the clock
reading `now`, as `getFullYear`, `getMonth() + 1` and `getDate` report them. -/
def today (tza : LocalTZA) (now : Int) : CivilDate := civilOfTime (LocalTime tza now)


/-! ## JavaScript values -/

/-- A JavaScript number, known through what the handlers can observe of it: the text
`String(n)` that the runtime gives it (as a template literal interpolates it) and whether
it is falsy (`0`, `-0`, `NaN`).  Every double is such a pair, so what holds of every pair
holds of every number, without any floating-point arithmetic. -/
structure JNumber where
  text : String
  falsy : Bool

/-- The number `n`, for an integer below `2^53` in magnitude: its text is the decimal
numeral, and it is falsy when it is `0`. -/
def jsInt (n : Int) : JNumber := { text := toString n, falsy := n == 0 }

/-- A JavaScript value as the handlers meet it: JSON data, plus `undefined`.  An object is
the list of its own properties. -/
inductive JVal where
  | undefined
  | null
  | bool (b : Bool)
  | num (n : JNumber)
  | str (s : String)
  | arr (items : List JVal)
  | obj (fields : List (String × JVal))

/-- A row of the table, and any other plain object: its properties in order. -/
abbrev Row := List (String × JVal)

/-- Property access `o.key` on an object: `undefined` when the property is absent. -/
def getField : Row → String → JVal
  | [], _ => .undefined
  | (k, v) :: rest, key => if k = key then v else getField rest key

/-- `ToBoolean`: what `!v` and `if (v)` test. -/
def toBoolean : JVal → Bool
  | .undefined => false
  | .null => false
  | .bool b => b
  | .num n => !n.falsy
  | .str s => s != ""
  | .arr _ => true
  | .obj _ => true

/-- Absent (`undefined`, `null`) or the empty text. -/
def absentOrEmpty : JVal → Bool
  | .undefined => true
  | .null => true
  | .str s => s == ""
  | _ => false

mutual
/-- `ToString`, as a template literal applies it to an interpolated value. -/
def jsToString : JVal → String
  | .undefined => "undefined"
  | .null => "null"
  | .bool true => "true"
  | .bool false => "false"
  | .num n => n.text
  | .str s => s
  | .arr items => jsJoin items
  | .obj _ => "[object Object]"
/-- `Array.prototype.join(",")`: `undefined` and `null` elements give the empty text. -/
def jsJoin : List JVal → String
  | [] => ""
  | [.undefined] => ""
  | [.null] => ""
  | [x] => jsToString x
  | .undefined :: rest => "," ++ jsJoin rest
  | .null :: rest => "," ++ jsJoin rest
  | x :: rest => jsToString x ++ "," ++ jsJoin rest
end

/-! ## HTTP responses and the external clients -/

/-- What a handler sends: the status, and the value given to `res.json`; `body = none`
is `res.send()` with no body. -/
structure Response where
  status : Nat
  body : Option JVal

/-- The error object a client reports; only its `message` is read. -/
structure ClientError where
  message : String

/-- The `{ data, error }` a data-store call resolves to; `data = none` is `null`. -/
structure DbResult where
  data : Option (List Row)
  error : Option ClientError

/-- The `{ data, error }` an email send resolves to. -/
structure MailResult where
  data : JVal
  error : Option ClientError

/-- The calls the handlers build on `supabase.from(table)`. -/
inductive Query where
  /-- `.select(columns)`, with `.eq(column, value)` when `filter` is given. -/
  | select (table columns : String) (filter : Option (String × String))
  /-- `.insert(rows).select()`. -/
  | insert (table : String) (rows : List Row)
  /-- `.update(values).eq(column, value).select()`. -/
  | update (table : String) (values : Row) (column value : String)
  /-- `.delete().eq(column, value)`. -/
  | delete (table : String) (column value : String)

/-- The argument of `resend.emails.send`: its properties `from`, `to`, `subject`, `html`
(`from_` and `to_` here, the plain words being reserved). -/
structure Email where
  from_ : String
  to_ : List String
  subject : String
  html : String

/-- An outbound call of a handler. -/
inductive Effect where
  | db (q : Query)
  | email (e : Email)

/-- The two external clients, acting on a world `σ` (the remote table and mailbox).  An
awaited call resolves to its `{ data, error }` result, as both client libraries report
their failures; a call that rejects is outside this model. -/
structure Clients (σ : Type) where
  db : Query → σ → DbResult × σ
  mail : Email → σ → MailResult × σ

/-- The run of a handler: the world it leaves, the outbound calls it made in order, and
the response it sent (`none`: an exception left the handler before any response). -/
structure Outcome (σ : Type) where
  world : σ
  trace : List Effect
  response : Option Response

/-- `res.status(code).json({ erro: message })`. -/
def erroResponse (code : Nat) (message : String) : Response :=
  { status := code, body := some (.obj [("erro", .str message)]) }

/-- `data[0]` when `data` is an array: the first row, or `undefined`. -/
def firstRow : List Row → JVal
  | [] => .undefined
  | r :: _ => .obj r

/-! ## Handlers -/

/-- The HTML list of the alert email (lines 73-77): `forEach` appends one item per product. -/
def listaProdutosEmail (produtos : List Row) : String :=
  produtos.foldl (fun acc p => acc ++ ("<li>" ++ jsToString (getField p "nome") ++ "</li>"))
    "<ul>" ++ "</ul>"

/-- The email of the alert (lines 79-88). -/
def alertEmail (dataAlvoString : String) (produtos : List Row) : Email :=
  { from_ := "onboarding@resend.dev"
    to_ := ["andre.vilela07@gmail.com"]
    subject := "Alerta de Validade - " ++ toString produtos.length ++ " produtos!"
    html := "\n                <p>Olá!</p>\n                <p>Os seguintes produtos estão vencendo em 7 dias ("
      ++ dataAlvoString ++ "):</p>\n                " ++ listaProdutosEmail produtos
      ++ "\n            " }

/-- The query of the scan (lines 54-57). -/
def alertQuery (dataAlvoString : String) : Query :=
  .select "produtos" "nome, data_validade" (some ("data_validade", dataAlvoString))

/-- The `try` block of `GET /send-alerts` (lines 36-95): `Except.error m` is
`throw new Error(m)`. -/
def sendAlertsTry {σ : Type} (c : Clients σ) (tza : LocalTZA) (now : Int) (w : σ) :
    σ × List Effect × Except String Response :=
  let dataAlvoString := dataAlvoString tza now
  let q := alertQuery dataAlvoString
  let (r, w1) := c.db q w
  match r.error with
  | some dbError => (w1, [.db q], .error ("Erro no Supabase: " ++ dbError.message))
  | none =>
    match r.data with
    | none =>
        (w1, [.db q], .ok { status := 200, body := some (.obj
          [("mensagem", .str "Nenhum produto vencendo na data-alvo.")]) })
    | some produtos =>
      if produtos.length = 0 then
        (w1, [.db q], .ok { status := 200, body := some (.obj
          [("mensagem", .str "Nenhum produto vencendo na data-alvo.")]) })
      else
        let e := alertEmail dataAlvoString produtos
        let (m, w2) := c.mail e w1
        match m.error with
        | some emailError =>
            (w2, [.db q, .email e], .error ("Erro no Resend: " ++ emailError.message))
        | none =>
            (w2, [.db q, .email e], .ok { status := 200, body := some (.obj
              [("mensagem", .str "Alertas processados e emails enviados!"),
               ("produtos", .arr (produtos.map .obj))]) })

/-- `GET /send-alerts` (lines 32-101): the `catch` turns a thrown error into a 500 whose
`erro` is the error's message. -/
def sendAlerts {σ : Type} (c : Clients σ) (tza : LocalTZA) (now : Int) (w : σ) : Outcome σ :=
  match sendAlertsTry c tza now w with
  | (w1, tr, .ok res) => { world := w1, trace := tr, response := some res }
  | (w1, tr, .error message) =>
      { world := w1, trace := tr, response := some (erroResponse 500 message) }

/-- `GET /produtos` (lines 113-125). -/
def listProdutos {σ : Type} (c : Clients σ) (w : σ) : Outcome σ :=
  let q := Query.select "produtos" "*" none
  let (r, w1) := c.db q w
  match r.error with
  | some error => { world := w1, trace := [.db q], response := some (erroResponse 500 error.message) }
  | none =>
      { world := w1, trace := [.db q], response := some
          { status := 200
            body := some (match r.data with
              | none => .null
              | some rows => .arr (rows.map .obj)) } }

/-- The body of the 400 response of create and update. -/
def obrigatorios : String := "Nome e data_validade são obrigatórios."

/-- What follows a store call in create and update: a 500 on error, otherwise the given
status with `data[0]`; `data[0]` on a `null` data throws. -/
def respondFirst (code : Nat) (r : DbResult) : Option Response :=
  match r.error with
  | some error => some (erroResponse 500 error.message)
  | none =>
    match r.data with
    | none => none
    | some data => some { status := code, body := some (firstRow data) }

/-- `PUT /produtos/:id` (lines 129-159); `body` is the object `express.json()` leaves in
`req.body`. -/
def updateProduto {σ : Type} (c : Clients σ) (id : String) (body : Row) (w : σ) : Outcome σ :=
  let nome := getField body "nome"
  let data_validade := getField body "data_validade"
  if !toBoolean nome || !toBoolean data_validade then
    { world := w, trace := [], response := some (erroResponse 400 obrigatorios) }
  else
    let q := Query.update "produtos" [("nome", nome), ("data_validade", data_validade)] "id" id
    let (r, w1) := c.db q w
    { world := w1, trace := [.db q], response := respondFirst 200 r }

/-- `DELETE /produtos/:id` (lines 162-184). -/
def deleteProduto {σ : Type} (c : Clients σ) (id : String) (w : σ) : Outcome σ :=
  let q := Query.delete "produtos" "id" id
  let (r, w1) := c.db q w
  match r.error with
  | some error => { world := w1, trace := [.db q], response := some (erroResponse 500 error.message) }
  | none => { world := w1, trace := [.db q], response := some { status := 204, body := none } }

/-- `POST /produtos` (lines 189-212). -/
def createProduto {σ : Type} (c : Clients σ) (body : Row) (w : σ) : Outcome σ :=
  let nome := getField body "nome"
  let data_validade := getField body "data_validade"
  if !toBoolean nome || !toBoolean data_validade then
    { world := w, trace := [], response := some (erroResponse 400 obrigatorios) }
  else
    let q := Query.insert "produtos" [[("nome", nome), ("data_validade", data_validade)]]
    let (r, w1) := c.db q w
    { world := w1, trace := [.db q], response := respondFirst 201 r }

/-! ## Startup (lines 1-25, 105, 215) -/

/-- What the top level of the module does to the outside. -/
inductive StartEffect where
  | consoleError (message : String)
  | exit (code : Nat)
  | createClient (url key : String)
  | newResend (key : String)
  | listen (port : JVal)

/-- `process.env.NAME`, of which the checks read the truthiness: unset and empty are falsy. -/
def envSet (env : String → Option String) (name : String) : Option String :=
  match env name with
  | some v => if v = "" then none else some v
  | none => none

/-- The top level of `index.js` as a function of the environment (after `dotenv`):
`process.exit(1)` ends the run; otherwise the clients are built and `app.listen(port)` is
called at line 105 and again at line 215. -/
def startup (env : String → Option String) : List StartEffect :=
  let port : JVal := match envSet env "PORT" with
    | some p => .str p
    | none => .num (jsInt 3000)
  match envSet env "SUPABASE_URL", envSet env "SUPABASE_KEY", envSet env "RESEND_API_KEY" with
  | some url, some key, some resendKey =>
      [.createClient url key, .newResend resendKey, .listen port, .listen port]
  | _, _, _ => [.consoleError "ERRO: Faltam variáveis de ambiente (.env)", .exit 1]

/-! ## An in-memory store and mailbox

The remote table as a collection of rows that never reports an error, with the five calls
of the handlers, and an email client that accepts every message. -/

/-- The table `produtos`, the last id it assigned, and the emails accepted so far. -/
structure MemWorld where
  rows : List Row
  lastId : Nat
  outbox : List Email

/-- Scanner of a column list: commas separate the names, blanks are dropped. -/
def splitColumnsAux : List Char → List Char → List String
  | [], acc => [String.mk acc.reverse]
  | c :: rest, acc =>
      if c = ',' then String.mk acc.reverse :: splitColumnsAux rest []
      else if c = ' ' then splitColumnsAux rest acc
      else splitColumnsAux rest (c :: acc)

/-- The names of a column list such as `nome, data_validade`. -/
def splitColumns (columns : String) : List String := splitColumnsAux columns.data []

/-- The columns of a row that a `select(columns)` returns; `*` is every column. -/
def project (columns : String) (r : Row) : Row :=
  if columns = "*" then r else r.filter (fun p => decide (p.1 ∈ splitColumns columns))

/-- The filter `.eq(column, value)`: the text of the column equals `value`. -/
def rowMatches (column value : String) (r : Row) : Bool :=
  decide (jsToString (getField r column) = value)

/-- Assignment `r[key] = v`: replaces the property, or appends it. -/
def setField : Row → String → JVal → Row
  | [], key, v => [(key, v)]
  | (k, v0) :: rest, key, v =>
      if k = key then (k, v) :: rest else (k, v0) :: setField rest key v

/-- The row `r` with the properties of `values` assigned to it. -/
def applyValues (values : Row) (r : Row) : Row :=
  values.foldl (fun acc p => setField acc p.1 p.2) r

/-- Ids for rows to insert: consecutive numbers after `lastId`, as the column `id`. -/
def assignIds : Nat → List Row → List Row
  | _, [] => []
  | lastId, r :: rest => (("id", JVal.num (jsInt (lastId + 1))) :: r) :: assignIds (lastId + 1) rest

/-- The data-store client over the in-memory table: no call reports an error. -/
def memDb : Query → MemWorld → DbResult × MemWorld
  | .select _ columns filter, w =>
      let hits := match filter with
        | none => w.rows
        | some (column, value) => w.rows.filter (rowMatches column value)
      ({ data := some (hits.map (project columns)), error := none }, w)
  | .insert _ rows, w =>
      let fresh := assignIds w.lastId rows
      ({ data := some fresh, error := none },
       { w with rows := w.rows ++ fresh, lastId := w.lastId + rows.length })
  | .update _ values column value, w =>
      ({ data := some ((w.rows.filter (rowMatches column value)).map (applyValues values)),
         error := none },
       { w with rows := w.rows.map fun r =>
           if rowMatches column value r then applyValues values r else r })
  | .delete _ column value, w =>
      ({ data := none, error := none },
       { w with rows := w.rows.filter fun r => !rowMatches column value r })

/-- The email client over the in-memory mailbox: every message is accepted. -/
def memMail (e : Email) (w : MemWorld) : MailResult × MemWorld :=
  ({ data := .obj [("id", .str "sent")], error := none }, { w with outbox := w.outbox ++ [e] })

/-- The two clients over the in-memory world. -/
def memClients : Clients MemWorld := { db := memDb, mail := memMail }

/-! ## Wording of the specification -/

/-- One `<li>` entry per product name, in the order of the list. -/
def itemsHtml : List Row → String
  | [] => ""
  | p :: rest => "<li>" ++ jsToString (getField p "nome") ++ "</li>" ++ itemsHtml rest

/-- The text `s` contains the text `part`. -/
def containsText (s part : String) : Prop := ∃ pre post : String, s = pre ++ part ++ post

/-- The number of emails sent in a trace. -/
def emailsSent : List Effect → Nat
  | [] => 0
  | .email _ :: rest => emailsSent rest + 1
  | .db _ :: rest => emailsSent rest

/-- The number of `listen` calls among the effects of startup. -/
def listenCalls : List StartEffect → Nat
  | [] => 0
  | .listen _ :: rest => listenCalls rest + 1
  | _ :: rest => listenCalls rest

/-- UTC-12, as a zone without clock changes. -/
def utcMinus12 : LocalTZA := fun _ _ => -43200000

/-- UTC+14, as a zone without clock changes. -/
def utcPlus14 : LocalTZA := fun _ _ => 50400000

/-- UTC, as a zone without clock changes. -/
def utcZone : LocalTZA := fun _ _ => 0

/-- The zone `Pacific/Apia` around the end of 2011: ten hours behind UTC until
2011-12-30T10:00:00Z (local midnight at the end of 2011-12-29), fourteen hours ahead from
then on, so that the local date 2011-12-30 does not exist.  A local time before local
2011-12-31T00:00 is read with the offset before the change, as `LocalTZA(t, false)` reads
a skipped local time. -/
def apia : LocalTZA := fun t isUTC =>
  if isUTC then (if t < 1325239200000 then -36000000 else 50400000)
  else (if t < 1325289600000 then -36000000 else 50400000)

/-- The in-memory table with an email client that reports the error `m` on every send. -/
def memStoreBrokenMail (m : String) : Clients MemWorld :=
  { db := memDb
    mail := fun _ w => ({ data := .null, error := some { message := m } }, w) }

/-- Clients whose data store reports the error `m` on every call. -/
def brokenStore (m : String) : Clients Unit :=
  { db := fun _ w => ({ data := none, error := some { message := m } }, w)
    mail := fun _ w => ({ data := .null, error := none }, w) }

/-- Clients whose store returns `rows` on every call and whose email send reports `m`. -/
def brokenMail (rows : List Row) (m : String) : Clients Unit :=
  { db := fun _ w => ({ data := some rows, error := none }, w)
    mail := fun _ w => ({ data := .null, error := some { message := m } }, w) }

/-- An environment with the three required settings and no `PORT`. -/
def envComplete (name : String) : Option String :=
  if name = "SUPABASE_URL" then some "https://example.supabase.co"
  else if name = "SUPABASE_KEY" then some "service-key"
  else if name = "RESEND_API_KEY" then some "re_key"
  else none

/-! ## Lemmas on the time-value algorithms -/

theorem DayFromYear_succ (y : Int) : DayFromYear (y + 1) = DayFromYear y + DaysInYear y := by
  unfold DayFromYear DaysInYear
  split_ifs <;> omega

theorem DaysInYear_pos (y : Int) : 365 ≤ DaysInYear y ∧ DaysInYear y ≤ 366 := by
  unfold DaysInYear
  split_ifs <;> omega

theorem DayFromYear_mono {a b : Int} (h : a ≤ b) : DayFromYear a ≤ DayFromYear b := by
  unfold DayFromYear
  omega

theorem TimeFromYear_mono {a b : Int} (h : a ≤ b) : TimeFromYear a ≤ TimeFromYear b := by
  have := DayFromYear_mono h
  unfold TimeFromYear msPerDay
  omega

theorem yearSearch_spec (t : Int) :
    ∀ (fuel : Nat) (y : Int), TimeFromYear y ≤ t → t < TimeFromYear (y + fuel) →
      TimeFromYear (yearSearch t fuel y) ≤ t ∧ t < TimeFromYear (yearSearch t fuel y + 1) := by
  intro fuel
  induction fuel with
  | zero =>
      intro y h1 h2
      simp at h2
      omega
  | succ n ih =>
      intro y h1 h2
      unfold yearSearch
      split_ifs with hlt
      · exact ⟨h1, hlt⟩
      · apply ih
        · omega
        · have e : y + 1 + (n : Int) = y + ((n + 1 : Nat) : Int) := by push_cast; ring
          rw [e]; exact h2

/-- `YearFromTime t` is a year `y` with `TimeFromYear y ≤ t < TimeFromYear (y + 1)`. -/
theorem YearFromTime_spec (t : Int) :
    TimeFromYear (YearFromTime t) ≤ t ∧ t < TimeFromYear (YearFromTime t + 1) := by
  unfold YearFromTime
  apply yearSearch_spec
  · unfold TimeFromYear DayFromYear msPerDay
    omega
  · unfold TimeFromYear DayFromYear msPerDay
    push_cast
    omega

/-- `YearFromTime t` is the largest `y` with `TimeFromYear y ≤ t`. -/
theorem YearFromTime_largest (t y : Int) (h : TimeFromYear y ≤ t) : y ≤ YearFromTime t := by
  by_contra hc
  have h1 : YearFromTime t + 1 ≤ y := by omega
  have := TimeFromYear_mono h1
  have := (YearFromTime_spec t).2
  omega

theorem YearFromTime_unique (t y : Int) (h1 : TimeFromYear y ≤ t) (h2 : t < TimeFromYear (y + 1)) :
    YearFromTime t = y := by
  have hle := YearFromTime_largest t y h1
  by_contra hc
  have h3 : y + 1 ≤ YearFromTime t := by omega
  have := TimeFromYear_mono h3
  have := (YearFromTime_spec t).1
  omega

theorem isLeapYear_iff (y : Int) : isLeapYear y = true ↔ DaysInYear y = 366 := by
  unfold isLeapYear DaysInYear
  split_ifs <;> simp <;> omega

theorem monthOfDay_cases (d l : Int) :
    (monthOfDay d l = 0 ∧ d < 31) ∨ (monthOfDay d l = 1 ∧ 31 ≤ d ∧ d < 59 + l) ∨
    (monthOfDay d l = 2 ∧ 59 + l ≤ d ∧ d < 90 + l) ∨
    (monthOfDay d l = 3 ∧ 90 + l ≤ d ∧ d < 120 + l) ∨
    (monthOfDay d l = 4 ∧ 120 + l ≤ d ∧ d < 151 + l) ∨
    (monthOfDay d l = 5 ∧ 151 + l ≤ d ∧ d < 181 + l) ∨
    (monthOfDay d l = 6 ∧ 181 + l ≤ d ∧ d < 212 + l) ∨
    (monthOfDay d l = 7 ∧ 212 + l ≤ d ∧ d < 243 + l) ∨
    (monthOfDay d l = 8 ∧ 243 + l ≤ d ∧ d < 273 + l) ∨
    (monthOfDay d l = 9 ∧ 273 + l ≤ d ∧ d < 304 + l) ∨
    (monthOfDay d l = 10 ∧ 304 + l ≤ d ∧ d < 334 + l) ∨
    (monthOfDay d l = 11 ∧ 334 + l ≤ d) := by
  unfold monthOfDay
  by_cases h0 : d < 31
  · rw [if_pos h0]; simp; omega
  rw [if_neg h0]
  by_cases h1 : d < 59 + l
  · rw [if_pos h1]; simp; omega
  rw [if_neg h1]
  by_cases h2 : d < 90 + l
  · rw [if_pos h2]; simp; omega
  rw [if_neg h2]
  by_cases h3 : d < 120 + l
  · rw [if_pos h3]; simp; omega
  rw [if_neg h3]
  by_cases h4 : d < 151 + l
  · rw [if_pos h4]; simp; omega
  rw [if_neg h4]
  by_cases h5 : d < 181 + l
  · rw [if_pos h5]; simp; omega
  rw [if_neg h5]
  by_cases h6 : d < 212 + l
  · rw [if_pos h6]; simp; omega
  rw [if_neg h6]
  by_cases h7 : d < 243 + l
  · rw [if_pos h7]; simp; omega
  rw [if_neg h7]
  by_cases h8 : d < 273 + l
  · rw [if_pos h8]; simp; omega
  rw [if_neg h8]
  by_cases h9 : d < 304 + l
  · rw [if_pos h9]; simp; omega
  rw [if_neg h9]
  by_cases h10 : d < 334 + l
  · rw [if_pos h10]; simp; omega
  rw [if_neg h10]
  simp; omega

set_option maxHeartbeats 40000000 in
theorem table_step (y dwy l : Int) (hl : l = if DaysInYear y = 365 then 0 else 1)
    (h0 : 0 ≤ dwy) (h1 : dwy + 1 < DaysInYear y) :
    (⟨y, monthOfDay (dwy + 1) l + 1, dateOfDay (monthOfDay (dwy + 1) l) (dwy + 1) l⟩ : CivilDate)
      = nextDay ⟨y, monthOfDay dwy l + 1, dateOfDay (monthOfDay dwy l) dwy l⟩ := by
  have hy := DaysInYear_pos y
  have hleap := isLeapYear_iff y
  have hc := monthOfDay_cases dwy l
  have hc1 := monthOfDay_cases (dwy + 1) l
  generalize monthOfDay dwy l = m at hc ⊢
  generalize monthOfDay (dwy + 1) l = m1 at hc1 ⊢
  rcases Bool.eq_false_or_eq_true (isLeapYear y) with hb | hb
  · have h366 : DaysInYear y = 366 := hleap.mp hb
    have hl1 : l = 1 := by rw [hl, h366]; rfl
    subst hl1
    rcases hc with ⟨rfl, hc⟩ | ⟨rfl, hc⟩ | ⟨rfl, hc⟩ | ⟨rfl, hc⟩ | ⟨rfl, hc⟩ | ⟨rfl, hc⟩ |
        ⟨rfl, hc⟩ | ⟨rfl, hc⟩ | ⟨rfl, hc⟩ | ⟨rfl, hc⟩ | ⟨rfl, hc⟩ | ⟨rfl, hc⟩ <;>
      rcases hc1 with ⟨rfl, hc1⟩ | ⟨rfl, hc1⟩ | ⟨rfl, hc1⟩ | ⟨rfl, hc1⟩ | ⟨rfl, hc1⟩ |
        ⟨rfl, hc1⟩ | ⟨rfl, hc1⟩ | ⟨rfl, hc1⟩ | ⟨rfl, hc1⟩ | ⟨rfl, hc1⟩ | ⟨rfl, hc1⟩ |
        ⟨rfl, hc1⟩ <;>
      first
        | omega
        | (simp only [nextDay, daysInMonth, hb, dateOfDay, CivilDate.mk.injEq]
           norm_num
           split_ifs <;> simp <;> omega)
  · have h365 : DaysInYear y = 365 := by
      have : ¬ DaysInYear y = 366 := by rw [← hleap]; simp [hb]
      omega
    have hl0 : l = 0 := by rw [hl, h365]; rfl
    subst hl0
    rcases hc with ⟨rfl, hc⟩ | ⟨rfl, hc⟩ | ⟨rfl, hc⟩ | ⟨rfl, hc⟩ | ⟨rfl, hc⟩ | ⟨rfl, hc⟩ |
        ⟨rfl, hc⟩ | ⟨rfl, hc⟩ | ⟨rfl, hc⟩ | ⟨rfl, hc⟩ | ⟨rfl, hc⟩ | ⟨rfl, hc⟩ <;>
      rcases hc1 with ⟨rfl, hc1⟩ | ⟨rfl, hc1⟩ | ⟨rfl, hc1⟩ | ⟨rfl, hc1⟩ | ⟨rfl, hc1⟩ |
        ⟨rfl, hc1⟩ | ⟨rfl, hc1⟩ | ⟨rfl, hc1⟩ | ⟨rfl, hc1⟩ | ⟨rfl, hc1⟩ | ⟨rfl, hc1⟩ |
        ⟨rfl, hc1⟩ <;>
      first
        | omega
        | (simp only [nextDay, daysInMonth, hb, dateOfDay, CivilDate.mk.injEq]
           norm_num
           split_ifs <;> simp <;> omega)

theorem table_rollover (y dwy l l1 : Int) (hl : l = if DaysInYear y = 365 then 0 else 1)
    (h1 : dwy + 1 = DaysInYear y) :
    (⟨y + 1, monthOfDay 0 l1 + 1, dateOfDay (monthOfDay 0 l1) 0 l1⟩ : CivilDate)
      = nextDay ⟨y, monthOfDay dwy l + 1, dateOfDay (monthOfDay dwy l) dwy l⟩ := by
  have hy := DaysInYear_pos y
  have hm0 : monthOfDay 0 l1 = 0 := by simp [monthOfDay]
  have hl01 : (l = 0 ∧ DaysInYear y = 365) ∨ (l = 1 ∧ DaysInYear y = 366) := by
    by_cases h : DaysInYear y = 365
    · left; rw [hl, if_pos h]; exact ⟨rfl, h⟩
    · right; rw [hl, if_neg h]; exact ⟨rfl, by omega⟩
  have hm : monthOfDay dwy l = 11 := by
    rcases monthOfDay_cases dwy l with h | h | h | h | h | h | h | h | h | h | h | h <;> omega
  rw [hm0, hm]
  simp only [nextDay, daysInMonth, dateOfDay, CivilDate.mk.injEq]
  norm_num
  rw [if_neg (by omega)]

theorem monthStart_date (d l : Int) :
    monthStart (monthOfDay d l) l + dateOfDay (monthOfDay d l) d l - 1 = d ∧
      0 ≤ monthOfDay d l ∧ monthOfDay d l ≤ 11 := by
  rcases monthOfDay_cases d l with h | h | h | h | h | h | h | h | h | h | h | h <;>
    (rw [h.1]; simp [monthStart, dateOfDay] <;> omega)

theorem Day_add (t : Int) (k : Int) : Day (t + k * msPerDay) = Day t + k := by
  unfold Day msPerDay
  omega

theorem Day_bounds (t : Int) :
    DayFromYear (YearFromTime t) ≤ Day t ∧ Day t < DayFromYear (YearFromTime t + 1) := by
  have h := YearFromTime_spec t
  unfold TimeFromYear at h
  unfold Day
  unfold msPerDay at *
  omega

theorem YearFromTime_of_Day (t y : Int) (h1 : DayFromYear y ≤ Day t)
    (h2 : Day t < DayFromYear (y + 1)) : YearFromTime t = y := by
  apply YearFromTime_unique
  · unfold TimeFromYear
    unfold Day at h1
    unfold msPerDay at *
    omega
  · unfold TimeFromYear
    unfold Day at h2
    unfold msPerDay at *
    omega

/-- One day later in time is the next calendar date. -/
theorem civilOfTime_step (t : Int) : civilOfTime (t + msPerDay) = nextDay (civilOfTime t) := by
  have hb := Day_bounds t
  have hsucc := DayFromYear_succ (YearFromTime t)
  have hd : Day (t + msPerDay) = Day t + 1 := by
    have := Day_add t 1
    simpa using this
  have hdwy0 : 0 ≤ DayWithinYear t := by unfold DayWithinYear; omega
  by_cases hlast : DayWithinYear t + 1 < DaysInYear (YearFromTime t)
  · have hy : YearFromTime (t + msPerDay) = YearFromTime t := by
      apply YearFromTime_of_Day
      · rw [hd]; omega
      · rw [hd, hsucc]; unfold DayWithinYear at hlast; omega
    have hw : DayWithinYear (t + msPerDay) = DayWithinYear t + 1 := by
      unfold DayWithinYear; rw [hy, hd]; ring
    have hl : InLeapYear (t + msPerDay) = InLeapYear t := by
      unfold InLeapYear; rw [hy]
    unfold civilOfTime DateFromTime MonthFromTime
    rw [hy, hw, hl]
    exact table_step (YearFromTime t) (DayWithinYear t) (InLeapYear t) rfl hdwy0 hlast
  · have hend : DayWithinYear t + 1 = DaysInYear (YearFromTime t) := by
      unfold DayWithinYear at hlast ⊢; omega
    have hy : YearFromTime (t + msPerDay) = YearFromTime t + 1 := by
      apply YearFromTime_of_Day
      · rw [hd, hsucc]; unfold DayWithinYear at hend; omega
      · rw [hd, DayFromYear_succ (YearFromTime t + 1), hsucc]
        have := DaysInYear_pos (YearFromTime t + 1)
        unfold DayWithinYear at hend; omega
    have hw : DayWithinYear (t + msPerDay) = 0 := by
      unfold DayWithinYear; rw [hy, hd, hsucc]; unfold DayWithinYear at hend; omega
    unfold civilOfTime DateFromTime MonthFromTime
    rw [hy, hw]
    exact table_rollover (YearFromTime t) (DayWithinYear t) (InLeapYear t) _ rfl hend

/-- Adding `n` days to a time value moves its calendar date `n` days ahead. -/
theorem civilOfTime_addDays (n : Nat) (t : Int) :
    civilOfTime (t + n * msPerDay) = addDays n (civilOfTime t) := by
  induction n generalizing t with
  | zero => simp [addDays]
  | succ k ih =>
      have e : t + ((k + 1 : Nat) : Int) * msPerDay = (t + msPerDay) + k * msPerDay := by
        push_cast; ring
      rw [e, ih, civilOfTime_step]
      rfl

/-- `MakeDay` on the fields of `t`, with the date moved by `k`, is the day number moved
by `k`. -/
theorem MakeDay_fields (t k : Int) :
    MakeDay (YearFromTime t) (MonthFromTime t) (DateFromTime t + k) = Day t + k := by
  have hb := Day_bounds t
  have hdwy0 : 0 ≤ DayWithinYear t := by unfold DayWithinYear; omega
  have h := monthStart_date (DayWithinYear t) (InLeapYear t)
  unfold MakeDay DateFromTime MonthFromTime
  have hdiv : monthOfDay (DayWithinYear t) (InLeapYear t) / 12 = 0 := by omega
  have hmod : monthOfDay (DayWithinYear t) (InLeapYear t) % 12
      = monthOfDay (DayWithinYear t) (InLeapYear t) := by omega
  simp only [hdiv, hmod, add_zero]
  have hl : (if DaysInYear (YearFromTime t) = 365 then (0 : Int) else 1) = InLeapYear t := rfl
  rw [hl]
  have hdef : DayWithinYear t = Day t - DayFromYear (YearFromTime t) := rfl
  omega

theorem MakeDate_Day (t k : Int) :
    MakeDate (Day t + k) (TimeWithinDay t) = t + k * msPerDay := by
  unfold MakeDate Day TimeWithinDay msPerDay
  omega

/-- The fields of a time value are a month from 1 to 12 and a day from 1 to 31. -/
theorem civilOfTime_bounds (t : Int) :
    1 ≤ (civilOfTime t).month ∧ (civilOfTime t).month ≤ 12 ∧
      1 ≤ (civilOfTime t).day ∧ (civilOfTime t).day ≤ 31 := by
  have hb := Day_bounds t
  have hsucc := DayFromYear_succ (YearFromTime t)
  have hy := DaysInYear_pos (YearFromTime t)
  have hdef : DayWithinYear t = Day t - DayFromYear (YearFromTime t) := rfl
  have hl : (InLeapYear t = 0 ∧ DaysInYear (YearFromTime t) = 365) ∨
      (InLeapYear t = 1 ∧ DaysInYear (YearFromTime t) = 366) := by
    unfold InLeapYear
    by_cases h : DaysInYear (YearFromTime t) = 365
    · left; rw [if_pos h]; exact ⟨rfl, h⟩
    · right; rw [if_neg h]; exact ⟨rfl, by omega⟩
  unfold civilOfTime DateFromTime MonthFromTime
  simp only
  rcases monthOfDay_cases (DayWithinYear t) (InLeapYear t) with
    h | h | h | h | h | h | h | h | h | h | h | h <;>
    (rw [h.1]; simp [dateOfDay]; omega)

theorem padStart_two (n : Int) (h0 : 0 ≤ n) (h1 : n ≤ 31) :
    padStart (numToString (some n)) 2 "0" = pad2 n := by
  interval_cases n <;> rfl

/-- The string computed by the scan handler is the decimal year, the month and the day of
the calendar date 7 days after today, when the target is a valid `Date` and its local time
exists in the zone. -/
theorem dataAlvoString_decimal (tza : LocalTZA) (now : Int)
    (hrange : |UTC tza (LocalTime tza now + 7 * msPerDay)| ≤ 8640000000000000)
    (hzone : LocalTime tza (UTC tza (LocalTime tza now + 7 * msPerDay))
      = LocalTime tza now + 7 * msPerDay) :
    dataAlvoString tza now
      = toString (addDays 7 (today tza now)).year ++ "-"
          ++ pad2 (addDays 7 (today tza now)).month ++ "-"
          ++ pad2 (addDays 7 (today tza now)).day := by
  have hset : dataAlvo tza now = some (UTC tza (LocalTime tza now + 7 * msPerDay)) := by
    unfold dataAlvo setDate getDate
    simp only [Option.map]
    rw [MakeDay_fields, MakeDate_Day]
    unfold TimeClip
    rw [if_neg (by omega)]
  have hciv : civilOfTime (LocalTime tza now + 7 * msPerDay) = addDays 7 (today tza now) := by
    have := civilOfTime_addDays 7 (LocalTime tza now)
    simpa [today] using this
  have hbd := civilOfTime_bounds (LocalTime tza now + 7 * msPerDay)
  unfold dataAlvoString getFullYear getMonth getDate
  simp only [hset, Option.map, hzone]
  rw [padStart_two _ (by unfold civilOfTime at hbd; simp only at hbd; omega)
        (by unfold civilOfTime at hbd; simp only at hbd; omega),
      padStart_two _ (by unfold civilOfTime at hbd; simp only at hbd; omega)
        (by unfold civilOfTime at hbd; simp only at hbd; omega)]
  rw [← hciv]
  rfl

theorem pad4_four_digits (y : Int) (h1 : 1000 ≤ y) : pad4 y = toString y := by
  unfold pad4
  rw [if_neg (by omega), if_neg (by omega), if_neg (by omega), if_neg (by omega)]

/-- With a 4-digit target year, the string computed by the scan handler is the text
`YYYY-MM-DD` of the calendar date 7 days after today. -/
theorem dataAlvoString_eq (tza : LocalTZA) (now : Int)
    (hrange : |UTC tza (LocalTime tza now + 7 * msPerDay)| ≤ 8640000000000000)
    (hzone : LocalTime tza (UTC tza (LocalTime tza now + 7 * msPerDay))
      = LocalTime tza now + 7 * msPerDay)
    (hy1 : 1000 ≤ (addDays 7 (today tza now)).year) :
    dataAlvoString tza now = renderDate (addDays 7 (today tza now)) := by
  rw [dataAlvoString_decimal tza now hrange hzone]
  unfold renderDate
  rw [pad4_four_digits _ hy1]

/-- The day found by `MakeDay` for the first of a month has that year, that month and
date 1. -/
theorem MakeDay_first (year month : Int) :
    YearFromTime (MakeDate (MakeDay year month 1) 0) = year + month / 12 ∧
      MonthFromTime (MakeDate (MakeDay year month 1) 0) = month % 12 ∧
      DateFromTime (MakeDate (MakeDay year month 1) 0) = 1 := by
  have hy := DaysInYear_pos (year + month / 12)
  have hsucc := DayFromYear_succ (year + month / 12)
  have hm0 : 0 ≤ month % 12 := by omega
  have hm1 : month % 12 < 12 := by omega
  generalize hmn : month % 12 = mn at *
  generalize hl : (if DaysInYear (year + month / 12) = 365 then (0 : Int) else 1) = l
  have hl01 : l = 0 ∨ l = 1 := by
    rw [← hl]; split_ifs <;> simp
  have hday : Day (MakeDate (MakeDay year month 1) 0)
      = DayFromYear (year + month / 12) + monthStart mn l := by
    unfold MakeDate MakeDay Day msPerDay
    simp only [hmn, hl]
    omega
  have hms : 0 ≤ monthStart mn l ∧ monthStart mn l < 365 := by
    rcases hl01 with rfl | rfl <;> interval_cases mn <;> simp [monthStart]
  have hyear : YearFromTime (MakeDate (MakeDay year month 1) 0) = year + month / 12 := by
    apply YearFromTime_of_Day
    · rw [hday]; omega
    · rw [hday, hsucc]; omega
  have hw : DayWithinYear (MakeDate (MakeDay year month 1) 0) = monthStart mn l := by
    unfold DayWithinYear; rw [hyear, hday]; ring
  have hleap : InLeapYear (MakeDate (MakeDay year month 1) 0) = l := by
    unfold InLeapYear; rw [hyear]; exact hl
  have hmonth : monthOfDay (monthStart mn l) l = mn := by
    rcases hl01 with rfl | rfl <;> interval_cases mn <;> rfl
  refine ⟨hyear, ?_, ?_⟩
  · unfold MonthFromTime; rw [hw, hleap]; exact hmonth
  · unfold DateFromTime MonthFromTime; rw [hw, hleap, hmonth]
    rcases hl01 with rfl | rfl <;> interval_cases mn <;> rfl

/-! ## Every calendar date is the local date of a clock reading -/

theorem civilOfTime_congr (t u : Int) (h : Day t = Day u) : civilOfTime t = civilOfTime u := by
  have hy : YearFromTime t = YearFromTime u := by
    apply YearFromTime_of_Day
    · rw [h]; exact (Day_bounds u).1
    · rw [h]; exact (Day_bounds u).2
  have hw : DayWithinYear t = DayWithinYear u := by
    unfold DayWithinYear; rw [hy, h]
  have hl : InLeapYear t = InLeapYear u := by
    unfold InLeapYear; rw [hy]
  unfold civilOfTime DateFromTime MonthFromTime
  rw [hy, hw, hl]

theorem addDays_in_month (y m : Int) (k : Nat) :
    ∀ d : Int, d + k ≤ daysInMonth y m → addDays k ⟨y, m, d⟩ = ⟨y, m, d + k⟩ := by
  induction k with
  | zero => intro d _; simp [addDays]
  | succ n ih =>
      intro d h
      have hlt : d < daysInMonth y m := by push_cast at h; omega
      have hnext : nextDay ⟨y, m, d⟩ = ⟨y, m, d + 1⟩ := by
        unfold nextDay
        simp only [hlt, if_true]
      unfold addDays
      rw [hnext, ih (d + 1) (by push_cast at h; omega)]
      simp only [CivilDate.mk.injEq, true_and]
      push_cast
      ring

/-- The time value that `MakeDay` and `MakeDate` build from a calendar date and a time of
day has that calendar date. -/
theorem civilOfTime_MakeDate (y m d tod : Int) (hm1 : 1 ≤ m) (hm2 : m ≤ 12) (hd1 : 1 ≤ d)
    (hd2 : d ≤ daysInMonth y m) (ht1 : 0 ≤ tod) (ht2 : tod < msPerDay) :
    civilOfTime (MakeDate (MakeDay y (m - 1) d) tod) = ⟨y, m, d⟩ := by
  have hfirst := MakeDay_first y (m - 1)
  have hdiv : (m - 1) / 12 = 0 := by omega
  have hmod : (m - 1) % 12 = m - 1 := by omega
  rw [hdiv, hmod] at hfirst
  have hciv0 : civilOfTime (MakeDate (MakeDay y (m - 1) 1) 0) = ⟨y, m, 1⟩ := by
    unfold civilOfTime
    rw [hfirst.1, hfirst.2.1, hfirst.2.2]
    simp
  obtain ⟨k, hk⟩ : ∃ k : Nat, d = 1 + (k : Int) := ⟨(d - 1).toNat, by omega⟩
  have hday : Day (MakeDate (MakeDay y (m - 1) d) tod)
      = Day (MakeDate (MakeDay y (m - 1) 1) 0 + (k : Int) * msPerDay) := by
    unfold MakeDate MakeDay Day msPerDay at *
    simp only
    omega
  rw [civilOfTime_congr _ _ hday, civilOfTime_addDays, hciv0,
    addDays_in_month y m k 1 (by omega), hk]

/-! ## Lemmas on the handlers -/

theorem listaProdutosEmail_foldl (produtos : List Row) (init : String) :
    produtos.foldl (fun acc p => acc ++ ("<li>" ++ jsToString (getField p "nome") ++ "</li>"))
      init = init ++ itemsHtml produtos := by
  induction produtos generalizing init with
  | nil => simp [itemsHtml]
  | cons p rest ih =>
      simp only [List.foldl_cons, itemsHtml]
      rw [ih]
      simp [String.append_assoc]

theorem listaProdutosEmail_eq (produtos : List Row) :
    listaProdutosEmail produtos = "<ul>" ++ itemsHtml produtos ++ "</ul>" := by
  unfold listaProdutosEmail
  rw [listaProdutosEmail_foldl]

theorem absentOrEmpty_falsy (v : JVal) (h : absentOrEmpty v = true) : toBoolean v = false := by
  cases v <;> simp_all [absentOrEmpty, toBoolean]

theorem sendAlerts_first_call {σ : Type} (c : Clients σ) (tza : LocalTZA) (now : Int) (w : σ) :
    (sendAlerts c tza now w).trace.head? = some (.db (alertQuery (dataAlvoString tza now))) := by
  unfold sendAlerts sendAlertsTry
  simp only
  split <;> rename_i heq <;> revert heq <;>
    (repeat' split) <;> intro heq <;> simp at heq <;>
    (obtain ⟨-, rfl, -⟩ := heq; rfl)

/-! ## Width of the rendered date -/

theorem toString_nat_four (n : Nat) (h1 : 1000 ≤ n) (h2 : n ≤ 9999) :
    (toString n).length = 4 := by
  obtain ⟨k, rfl⟩ : ∃ k, n = k + 4 := ⟨n - 4, by omega⟩
  show (Nat.repr (k + 4)).length = 4
  unfold Nat.repr Nat.toDigits
  have e : k + 4 + 1 = (k + 1) + 1 + 1 + 1 + 1 := by omega
  rw [e]
  simp only [Nat.toDigitsCore]
  have a1 : ¬ (k + 4) / 10 = 0 := by omega
  have a2 : ¬ (k + 4) / 10 / 10 = 0 := by omega
  have a3 : ¬ (k + 4) / 10 / 10 / 10 = 0 := by omega
  have a4 : (k + 4) / 10 / 10 / 10 / 10 = 0 := by omega
  simp [a1, a2, a3, a4, List.asString]

theorem toString_year_four (y : Int) (h1 : 1000 ≤ y) (h2 : y ≤ 9999) :
    (toString y).length = 4 := by
  obtain ⟨n, rfl⟩ : ∃ n : Nat, y = (n : Int) := ⟨y.toNat, by omega⟩
  have hcast : toString ((n : Nat) : Int) = toString n := rfl
  rw [hcast]
  exact toString_nat_four n (by omega) (by omega)

theorem pad2_length (n : Int) (h0 : 0 ≤ n) (h1 : n ≤ 31) : (pad2 n).length = 2 := by
  interval_cases n <;> rfl

/-- A date with a 4-digit year, a month from 1 to 12 and a day from 1 to 31 is rendered on
10 characters. -/
theorem renderDate_length (cd : CivilDate) (hy1 : 1000 ≤ cd.year) (hy2 : cd.year ≤ 9999)
    (hm1 : 1 ≤ cd.month) (hm2 : cd.month ≤ 12) (hd1 : 1 ≤ cd.day) (hd2 : cd.day ≤ 31) :
    (renderDate cd).length = 10 := by
  unfold renderDate
  rw [pad4_four_digits _ hy1]
  simp only [String.length_append]
  rw [toString_year_four _ hy1 hy2, pad2_length _ (by omega) (by omega),
    pad2_length _ (by omega) (by omega)]
  rfl

/-! ## The scan: target date -/

/-- C1, as the code has it: in `GET /send-alerts`, for every clock reading and zone whose
target is inside the range of `Date`, has a local time that no clock change skips, and
falls in a year from 1000 to 9999, the target string is the calendar date 7 days after
today's local date as `YYYY-MM-DD` (4-digit year, 1-based month and day zero-padded to 2
digits, 10 characters); it is the value the store is queried with; today = 2024-01-01
gives `2024-01-08`; and every calendar date, at every time of day and every fixed offset,
is the `today` of a clock reading. -/
theorem target_date_seven_days_ahead {σ : Type} (c : Clients σ) (w : σ) (tza : LocalTZA)
    (now : Int)
    (hrange : |UTC tza (LocalTime tza now + 7 * msPerDay)| ≤ 8640000000000000)
    (hzone : LocalTime tza (UTC tza (LocalTime tza now + 7 * msPerDay))
      = LocalTime tza now + 7 * msPerDay)
    (hy1 : 1000 ≤ (addDays 7 (today tza now)).year)
    (hy2 : (addDays 7 (today tza now)).year ≤ 9999) :
    dataAlvoString tza now = renderDate (addDays 7 (today tza now)) ∧
      (dataAlvoString tza now).length = 10 ∧
      (sendAlerts c tza now w).trace.head?
        = some (.db (alertQuery (renderDate (addDays 7 (today tza now))))) ∧
      (today tza now = ⟨2024, 1, 1⟩ → dataAlvoString tza now = "2024-01-08") ∧
      (∀ y m d tod offset : Int, 1 ≤ m → m ≤ 12 → 1 ≤ d → d ≤ daysInMonth y m →
        0 ≤ tod → tod < msPerDay →
        today (fun _ _ => offset) (MakeDate (MakeDay y (m - 1) d) tod - offset) = ⟨y, m, d⟩) := by
  have h := dataAlvoString_eq tza now hrange hzone hy1
  refine ⟨h, ?_, ?_, ?_, ?_⟩
  · have hciv : civilOfTime (LocalTime tza now + 7 * msPerDay) = addDays 7 (today tza now) := by
      have := civilOfTime_addDays 7 (LocalTime tza now)
      simpa [today] using this
    have hbd := civilOfTime_bounds (LocalTime tza now + 7 * msPerDay)
    rw [hciv] at hbd
    rw [h]
    exact renderDate_length _ hy1 hy2 hbd.1 hbd.2.1 hbd.2.2.1 hbd.2.2.2
  · rw [← h]; exact sendAlerts_first_call c tza now w
  · intro ht
    rw [h, ht]
    decide
  · intro y m d tod offset hm1 hm2 hd1 hd2 ht1 ht2
    have hlocal : LocalTime (fun _ _ => offset) (MakeDate (MakeDay y (m - 1) d) tod - offset)
        = MakeDate (MakeDay y (m - 1) d) tod := by
      unfold LocalTime
      ring
    unfold today
    rw [hlocal]
    exact civilOfTime_MakeDate y m d tod hm1 hm2 hd1 hd2 ht1 ht2

/-- C1 at noon UTC of 2024-01-01 in UTC-12 (local midnight) and at 09:59 UTC of
2024-01-01 in UTC+14 (local 23:59): both give `2024-01-08`. -/
theorem target_date_seven_days_ahead_witness :
    (today utcMinus12 1704110400000 = ⟨2024, 1, 1⟩ ∧
      dataAlvoString utcMinus12 1704110400000 = "2024-01-08") ∧
    (today utcPlus14 1704103140000 = ⟨2024, 1, 1⟩ ∧
      dataAlvoString utcPlus14 1704103140000 = "2024-01-08") :=
  ⟨⟨by decide, (target_date_seven_days_ahead memClients ⟨[], 0, []⟩ utcMinus12 1704110400000
      (by simp [UTC, LocalTime, utcMinus12, msPerDay, abs_le]) (by decide) (by decide)
      (by decide)).2.2.2.1 (by decide)⟩,
   ⟨by decide, (target_date_seven_days_ahead memClients ⟨[], 0, []⟩ utcPlus14 1704103140000
      (by simp [UTC, LocalTime, utcPlus14, msPerDay, abs_le]) (by decide) (by decide)
      (by decide)).2.2.2.1 (by decide)⟩⟩

set_option maxRecDepth 100000 in
/-- C1 as stated fails at three clock readings.  In `Pacific/Apia` at local noon of
2011-12-23 the date 7 days ahead is 2011-12-30, a local day the zone skipped, and the
string is `2011-12-31`.  At the last instant of the range of `Date` (local 275760-09-13 in
UTC) the target is an invalid `Date` and the string is `NaN-NaN-NaN`.  At local 0001-01-01
in UTC the year is written on one digit: `1-01-08`, not `0001-01-08`. -/
theorem target_date_fails_outside :
    (today apia 1324677600000 = ⟨2011, 12, 23⟩ ∧
      renderDate (addDays 7 (today apia 1324677600000)) = "2011-12-30" ∧
      dataAlvoString apia 1324677600000 = "2011-12-31") ∧
    (today utcZone 8640000000000000 = ⟨275760, 9, 13⟩ ∧
      dataAlvoString utcZone 8640000000000000 = "NaN-NaN-NaN") ∧
    (today utcZone (-62135596800000) = ⟨1, 1, 1⟩ ∧
      renderDate (addDays 7 (today utcZone (-62135596800000))) = "0001-01-08" ∧
      dataAlvoString utcZone (-62135596800000) = "1-01-08") := by
  refine ⟨⟨?_, ?_, ?_⟩, ⟨?_, ?_⟩, ⟨?_, ?_, ?_⟩⟩ <;> decide

/-! ## The scan: matches and no matches -/

/-- C2, as the code has it: when the store returns `N ≥ 1` rows and no error, exactly one
email is sent, from the fixed sender to the fixed single recipient; its subject contains
the decimal `N`; its HTML contains the target string and the list `<ul>…</ul>` with one
`<li>` per product name in the order returned; and when the send reports no error the
response is 200 with the success message and all the rows. -/
theorem alert_email_for_matches {σ : Type} (c : Clients σ) (tza : LocalTZA) (now : Int)
    (w w1 : σ) (produtos : List Row)
    (hdb : c.db (alertQuery (dataAlvoString tza now)) w
      = ({ data := some produtos, error := none }, w1))
    (hN : 1 ≤ produtos.length) :
    let e := alertEmail (dataAlvoString tza now) produtos
    (sendAlerts c tza now w).trace = [.db (alertQuery (dataAlvoString tza now)), .email e] ∧
      emailsSent (sendAlerts c tza now w).trace = 1 ∧
      e.from_ = "onboarding@resend.dev" ∧ e.to_ = ["andre.vilela07@gmail.com"] ∧
      containsText e.subject (toString produtos.length) ∧
      containsText e.html (dataAlvoString tza now) ∧
      containsText e.html ("<ul>" ++ itemsHtml produtos ++ "</ul>") ∧
      ((c.mail e w1).1.error = none →
        (sendAlerts c tza now w).response = some { status := 200, body := some (.obj
          [("mensagem", .str "Alertas processados e emails enviados!"),
           ("produtos", .arr (produtos.map .obj))]) }) := by
  intro e
  have hlen : ¬ produtos.length = 0 := by omega
  have htrace : (sendAlerts c tza now w).trace
      = [.db (alertQuery (dataAlvoString tza now)), .email e] := by
    unfold sendAlerts sendAlertsTry
    simp only [hdb, hlen, if_false]
    cases hm : (c.mail (alertEmail (dataAlvoString tza now) produtos) w1).1.error <;> rfl
  refine ⟨htrace, ?_, rfl, rfl, ?_, ?_, ?_, ?_⟩
  · rw [htrace]; rfl
  · exact ⟨"Alerta de Validade - ", " produtos!", rfl⟩
  · exact ⟨"\n                <p>Olá!</p>\n                <p>Os seguintes produtos estão vencendo em 7 dias (",
      "):</p>\n                " ++ listaProdutosEmail produtos ++ "\n            ", by
        simp [e, alertEmail, String.append_assoc]⟩
  · refine ⟨"\n                <p>Olá!</p>\n                <p>Os seguintes produtos estão vencendo em 7 dias ("
      ++ dataAlvoString tza now ++ "):</p>\n                ", "\n            ", ?_⟩
    rw [← listaProdutosEmail_eq]
    rfl
  · intro hm
    unfold sendAlerts sendAlertsTry
    simp only [hdb, hlen, if_false]
    simp only [e] at hm
    rw [hm]

/-- C2 as stated fails when the email send reports an error.  The table holds `Milk` with
the expiration date `2024-01-08`, the clock reads noon UTC of 2024-01-01 in UTC-12, so the
target string is `2024-01-08` and the store returns that one row and no error; one email
send is issued, it reports `boom`, and the response is 500, not 200. -/
theorem alert_with_failed_send_is_500 :
    dataAlvoString utcMinus12 1704110400000 = "2024-01-08" ∧
      (memDb (alertQuery (dataAlvoString utcMinus12 1704110400000))
        ⟨[[("id", .num (jsInt 1)), ("nome", .str "Milk"),
           ("data_validade", .str "2024-01-08")]], 1, []⟩).1.data
        = some [[("nome", .str "Milk"), ("data_validade", .str "2024-01-08")]] ∧
      emailsSent (sendAlerts (memStoreBrokenMail "boom") utcMinus12 1704110400000
        ⟨[[("id", .num (jsInt 1)), ("nome", .str "Milk"),
           ("data_validade", .str "2024-01-08")]], 1, []⟩).trace = 1 ∧
      (sendAlerts (memStoreBrokenMail "boom") utcMinus12 1704110400000
        ⟨[[("id", .num (jsInt 1)), ("nome", .str "Milk"),
           ("data_validade", .str "2024-01-08")]], 1, []⟩).response
        = some { status := 500, body := some (.obj [("erro", .str "Erro no Resend: boom")]) } ∧
      ((sendAlerts (memStoreBrokenMail "boom") utcMinus12 1704110400000
        ⟨[[("id", .num (jsInt 1)), ("nome", .str "Milk"),
           ("data_validade", .str "2024-01-08")]], 1, []⟩).response.map
        fun r => r.status) ≠ some 200 := by
  refine ⟨by decide, rfl, by decide, rfl, ?_⟩
  have h : ((sendAlerts (memStoreBrokenMail "boom") utcMinus12 1704110400000
      ⟨[[("id", .num (jsInt 1)), ("nome", .str "Milk"),
         ("data_validade", .str "2024-01-08")]], 1, []⟩).response.map fun r => r.status)
      = some 500 := rfl
  rw [h]
  decide

/-- C2 as amended, on the in-memory table holding `Milk` for the target date of noon UTC
of 2024-01-01 in UTC-12: one email, and 200. -/
theorem alert_email_for_matches_witness :
    emailsSent (sendAlerts memClients utcMinus12 1704110400000
      ⟨[[("id", .num (jsInt 1)), ("nome", .str "Milk"), ("data_validade", .str "2024-01-08")]], 1, []⟩
      ).trace = 1 :=
  (alert_email_for_matches memClients utcMinus12 1704110400000
    ⟨[[("id", .num (jsInt 1)), ("nome", .str "Milk"), ("data_validade", .str "2024-01-08")]], 1, []⟩
    ⟨[[("id", .num (jsInt 1)), ("nome", .str "Milk"), ("data_validade", .str "2024-01-08")]], 1, []⟩
    [[("nome", .str "Milk"), ("data_validade", .str "2024-01-08")]]
    rfl (by decide)).2.1

/-- C3: when the store query succeeds with no rows (an empty array, or `null`), no email
is sent and the response is 200 with the single key `mensagem` and no `produtos`. -/
theorem no_email_without_matches {σ : Type} (c : Clients σ) (tza : LocalTZA) (now : Int)
    (w w1 : σ) (data : Option (List Row))
    (hdb : c.db (alertQuery (dataAlvoString tza now)) w = ({ data := data, error := none }, w1))
    (hzero : data = some [] ∨ data = none) :
    (sendAlerts c tza now w).trace = [.db (alertQuery (dataAlvoString tza now))] ∧
      emailsSent (sendAlerts c tza now w).trace = 0 ∧
      (sendAlerts c tza now w).response = some { status := 200, body := some (.obj
        [("mensagem", .str "Nenhum produto vencendo na data-alvo.")]) } ∧
      getField [("mensagem", .str "Nenhum produto vencendo na data-alvo.")] "produtos"
        = .undefined := by
  have key : sendAlerts c tza now w = Outcome.mk w1
      [.db (alertQuery (dataAlvoString tza now))]
      (some { status := 200, body := some (.obj
        [("mensagem", .str "Nenhum produto vencendo na data-alvo.")]) }) := by
    rcases hzero with rfl | rfl <;> simp [sendAlerts, sendAlertsTry, hdb]
  rw [key]
  exact ⟨rfl, rfl, rfl, rfl⟩

/-- C3 on the empty in-memory table. -/
theorem no_email_without_matches_witness :
    emailsSent (sendAlerts memClients utcMinus12 1704110400000 ⟨[], 0, []⟩).trace = 0 :=
  (no_email_without_matches memClients utcMinus12 1704110400000 ⟨[], 0, []⟩ ⟨[], 0, []⟩
    (some []) rfl (Or.inl rfl)).2.1

/-! ## Validation, create, update -/

theorem guard_of_truthy (a b : JVal) (ha : toBoolean a = true) (hb : toBoolean b = true) :
    (!toBoolean a || !toBoolean b) = false := by
  simp [ha, hb]

theorem guard_of_empty (a b : JVal)
    (h : absentOrEmpty a = true ∨ absentOrEmpty b = true) :
    (!toBoolean a || !toBoolean b) = true := by
  rcases h with h | h
  · simp [absentOrEmpty_falsy a h]
  · simp [absentOrEmpty_falsy b h]

/-- C5: a create or update whose `nome` or `data_validade` is absent or empty is answered
400 with the one fixed message, without any call to the store and with the world
unchanged. -/
theorem missing_fields_rejected {σ : Type} (c : Clients σ) (w : σ) (id : String) (body : Row)
    (h : absentOrEmpty (getField body "nome") = true ∨
      absentOrEmpty (getField body "data_validade") = true) :
    createProduto c body w = Outcome.mk w [] (some { status := 400, body := some (.obj
        [("erro", .str "Nome e data_validade são obrigatórios.")]) }) ∧
      updateProduto c id body w = Outcome.mk w [] (some { status := 400, body := some (.obj
        [("erro", .str "Nome e data_validade são obrigatórios.")]) }) := by
  have hg := guard_of_empty _ _ h
  constructor
  · unfold createProduto
    simp only [hg, if_true]
    rfl
  · unfold updateProduto
    simp only [hg, if_true]
    rfl

/-- C5 on a body without `nome`, and on a body whose `data_validade` is the empty text. -/
theorem missing_fields_rejected_witness :
    (createProduto memClients [("data_validade", .str "2024-01-08")] ⟨[], 0, []⟩).trace = [] ∧
      ((updateProduto memClients "1" [("nome", .str "Milk"), ("data_validade", .str "")]
        ⟨[], 0, []⟩).response.map fun r => r.status) = some 400 :=
  ⟨congrArg Outcome.trace (missing_fields_rejected memClients ⟨[], 0, []⟩ "1"
      [("data_validade", .str "2024-01-08")] (Or.inl rfl)).1,
   congrArg (fun o => o.response.map fun r => r.status)
     (missing_fields_rejected memClients ⟨[], 0, []⟩ "1"
      [("nome", .str "Milk"), ("data_validade", .str "")] (Or.inr rfl)).2⟩

theorem createProduto_valid {σ : Type} (c : Clients σ) (w : σ) (body : Row)
    (hn : toBoolean (getField body "nome") = true)
    (hd : toBoolean (getField body "data_validade") = true) :
    createProduto c body w =
      Outcome.mk
        (c.db (.insert "produtos"
          [[("nome", getField body "nome"), ("data_validade", getField body "data_validade")]])
          w).2
        [.db (.insert "produtos"
          [[("nome", getField body "nome"), ("data_validade", getField body "data_validade")]])]
        (respondFirst 201 (c.db (.insert "produtos"
          [[("nome", getField body "nome"), ("data_validade", getField body "data_validade")]])
          w).1) := by
  unfold createProduto
  simp only [guard_of_truthy _ _ hn hd]
  rfl

theorem updateProduto_valid {σ : Type} (c : Clients σ) (w : σ) (id : String) (body : Row)
    (hn : toBoolean (getField body "nome") = true)
    (hd : toBoolean (getField body "data_validade") = true) :
    updateProduto c id body w =
      Outcome.mk
        (c.db (.update "produtos"
          [("nome", getField body "nome"), ("data_validade", getField body "data_validade")]
          "id" id) w).2
        [.db (.update "produtos"
          [("nome", getField body "nome"), ("data_validade", getField body "data_validade")]
          "id" id)]
        (respondFirst 200 (c.db (.update "produtos"
          [("nome", getField body "nome"), ("data_validade", getField body "data_validade")]
          "id" id) w).1) := by
  unfold updateProduto
  simp only [guard_of_truthy _ _ hn hd]
  rfl

/-- C6, as the code has it: a create whose `nome` and `data_validade` are both truthy (any
non-empty text, any number other than `0` and `NaN`, `true`, any array or object) issues
exactly one insert, of the single row made of the two submitted values and nothing else of
the body; when the store returns rows and no error, the response is 201 with the first
row; so when the store returns the inserted row with a non-empty `id` put in front, the
product returned has that id and the submitted name and date. -/
theorem create_inserts_and_echoes {σ : Type} (c : Clients σ) (w : σ) (body : Row)
    (hn : toBoolean (getField body "nome") = true)
    (hd : toBoolean (getField body "data_validade") = true) :
    let row : Row :=
      [("nome", getField body "nome"), ("data_validade", getField body "data_validade")]
    (createProduto c body w).trace = [.db (.insert "produtos" [row])] ∧
      (∀ r rest, (c.db (.insert "produtos" [row]) w).1
          = { data := some (r :: rest), error := none } →
        (createProduto c body w).response = some { status := 201, body := some (.obj r) }) ∧
      (∀ id, absentOrEmpty id = false →
        (c.db (.insert "produtos" [row]) w).1
          = { data := some [("id", id) :: row], error := none } →
        ∃ p, (createProduto c body w).response = some { status := 201, body := some (.obj p) } ∧
          absentOrEmpty (getField p "id") = false ∧
          getField p "nome" = getField body "nome" ∧
          getField p "data_validade" = getField body "data_validade") := by
  intro row
  have key := createProduto_valid c w body hn hd
  refine ⟨?_, ?_, ?_⟩
  · rw [key]
  · intro r rest hres
    rw [key]
    show respondFirst 201 (c.db (.insert "produtos" [row]) w).1 = _
    rw [hres]
    rfl
  · intro id hid hres
    refine ⟨("id", id) :: row, ?_, ?_, ?_, ?_⟩
    · rw [key]
      show respondFirst 201 (c.db (.insert "produtos" [row]) w).1 = _
      rw [hres]
      rfl
    · simpa [getField] using hid
    · simp [row, getField]
    · simp [row, getField]

/-- C6 on the in-memory table: `Milk`, `2024-01-08`, with a client-supplied `id` that is
not inserted; the table assigns the id 1. -/
theorem create_inserts_and_echoes_witness :
    (createProduto memClients
        [("id", .num (jsInt 99)), ("nome", .str "Milk"), ("data_validade", .str "2024-01-08")]
        ⟨[], 0, []⟩).trace
      = [.db (.insert "produtos" [[("nome", .str "Milk"), ("data_validade", .str "2024-01-08")]])] ∧
    ∃ p, (createProduto memClients
        [("id", .num (jsInt 99)), ("nome", .str "Milk"), ("data_validade", .str "2024-01-08")]
        ⟨[], 0, []⟩).response = some { status := 201, body := some (.obj p) } ∧
      absentOrEmpty (getField p "id") = false ∧
      getField p "nome" = .str "Milk" ∧ getField p "data_validade" = .str "2024-01-08" :=
  ⟨(create_inserts_and_echoes memClients ⟨[], 0, []⟩
      [("id", .num (jsInt 99)), ("nome", .str "Milk"), ("data_validade", .str "2024-01-08")]
      rfl rfl).1,
   (create_inserts_and_echoes memClients ⟨[], 0, []⟩
      [("id", .num (jsInt 99)), ("nome", .str "Milk"), ("data_validade", .str "2024-01-08")]
      rfl rfl).2.2 (.num (jsInt 1)) rfl rfl⟩

/-- C6 as stated fails for a name that is present and not empty but falsy: with `nome`
the number `0` (and a date) the create is answered 400 and issues no insert. -/
theorem create_rejects_zero_name :
    absentOrEmpty (getField [("nome", .num (jsInt 0)), ("data_validade", .str "2024-01-08")]
        "nome") = false ∧
      absentOrEmpty (getField [("nome", .num (jsInt 0)), ("data_validade", .str "2024-01-08")]
        "data_validade") = false ∧
      (createProduto memClients [("nome", .num (jsInt 0)), ("data_validade", .str "2024-01-08")]
        ⟨[], 0, []⟩).trace = [] ∧
      (createProduto memClients [("nome", .num (jsInt 0)), ("data_validade", .str "2024-01-08")]
        ⟨[], 0, []⟩).response
        = some { status := 400, body := some (.obj
            [("erro", .str "Nome e data_validade são obrigatórios.")]) } :=
  ⟨rfl, rfl, rfl, rfl⟩

/-! ## Rows of the in-memory table -/

theorem getField_setField_same (r : Row) (key : String) (v : JVal) :
    getField (setField r key v) key = v := by
  induction r with
  | nil => simp [setField, getField]
  | cons p rest ih =>
      obtain ⟨k, v0⟩ := p
      by_cases hk : k = key
      · simp [setField, getField, hk]
      · simp [setField, getField, hk, ih]

theorem getField_setField_other (r : Row) (key other : String) (v : JVal) (h : key ≠ other) :
    getField (setField r key v) other = getField r other := by
  induction r with
  | nil => simp [setField, getField, h]
  | cons p rest ih =>
      obtain ⟨k, v0⟩ := p
      by_cases hk : k = key
      · subst hk
        simp [setField, getField, h]
      · by_cases ho : k = other
        · subst ho
          simp [setField, getField, hk]
        · simp [setField, getField, hk, ho, ih]

theorem filter_cons_of_exists {α : Type} (p : α → Bool) (l : List α)
    (h : ∃ x ∈ l, p x = true) : ∃ x rest, l.filter p = x :: rest ∧ p x = true := by
  induction l with
  | nil => simp at h
  | cons a rest ih =>
      by_cases ha : p a = true
      · exact ⟨a, rest.filter p, by simp [List.filter, ha], ha⟩
      · have hrest : ∃ x ∈ rest, p x = true := by
          obtain ⟨x, hx, hpx⟩ := h
          rcases List.mem_cons.mp hx with rfl | hx
          · exact absurd hpx ha
          · exact ⟨x, hx, hpx⟩
        obtain ⟨x, tl, hf, hpx⟩ := ih hrest
        exact ⟨x, tl, by simp [List.filter, ha, hf], hpx⟩

theorem filter_nil_of_forall {α : Type} (p : α → Bool) (l : List α)
    (h : ∀ x ∈ l, p x = false) : l.filter p = [] := by
  simpa [List.filter_eq_nil_iff] using h

/-! ## Update -/

/-- C10, as the code has it: an update whose `nome` and `data_validade` are both truthy
(any non-empty text, any number other than `0` and `NaN`, `true`, any array or object)
issues one update call; when the store returns an empty result and no error (no row has
the id) the response is 200 with the `undefined` first element of the empty result, never
404; when it returns rows the response is 200 with the first of them; over the in-memory
table a matching id gives 200 with a row whose name and date are the submitted values, and
an id that matches no row gives 200 with `undefined`. -/
theorem update_responds_200 {σ : Type} (c : Clients σ) (w : σ) (id : String) (body : Row)
    (hn : toBoolean (getField body "nome") = true)
    (hd : toBoolean (getField body "data_validade") = true) :
    let values : Row :=
      [("nome", getField body "nome"), ("data_validade", getField body "data_validade")]
    (updateProduto c id body w).trace = [.db (.update "produtos" values "id" id)] ∧
      ((c.db (.update "produtos" values "id" id) w).1 = { data := some [], error := none } →
        (updateProduto c id body w).response
          = some { status := 200, body := some .undefined }) ∧
      (∀ r rest, (c.db (.update "produtos" values "id" id) w).1
          = { data := some (r :: rest), error := none } →
        (updateProduto c id body w).response = some { status := 200, body := some (.obj r) }) ∧
      (∀ mw : MemWorld, (∃ r ∈ mw.rows, rowMatches "id" id r = true) →
        ∃ p, (updateProduto memClients id body mw).response
            = some { status := 200, body := some (.obj p) } ∧
          getField p "nome" = getField body "nome" ∧
          getField p "data_validade" = getField body "data_validade") ∧
      (∀ mw : MemWorld, (∀ r ∈ mw.rows, rowMatches "id" id r = false) →
        (updateProduto memClients id body mw).response
          = some { status := 200, body := some .undefined }) := by
  intro values
  have key := updateProduto_valid c w id body hn hd
  refine ⟨?_, ?_, ?_, ?_, ?_⟩
  · rw [key]
  · intro hres
    rw [key]
    show respondFirst 200 (c.db (.update "produtos" values "id" id) w).1 = _
    rw [hres]
    rfl
  · intro r rest hres
    rw [key]
    show respondFirst 200 (c.db (.update "produtos" values "id" id) w).1 = _
    rw [hres]
    rfl
  · intro mw hex
    obtain ⟨r0, rest, hf, -⟩ := filter_cons_of_exists _ _ hex
    refine ⟨applyValues values r0, ?_, ?_, ?_⟩
    · rw [updateProduto_valid memClients mw id body hn hd]
      show respondFirst 200 (memDb (.update "produtos" values "id" id) mw).1 = _
      simp only [memDb, hf, List.map_cons]
      rfl
    · simp only [values, applyValues, List.foldl_cons, List.foldl_nil]
      rw [getField_setField_other _ _ _ _ (by decide), getField_setField_same]
    · simp only [values, applyValues, List.foldl_cons, List.foldl_nil]
      rw [getField_setField_same]
  · intro mw hall
    have hf := filter_nil_of_forall _ _ hall
    rw [updateProduto_valid memClients mw id body hn hd]
    show respondFirst 200 (memDb (.update "produtos" values "id" id) mw).1 = _
    simp only [memDb, hf, List.map_nil]
    rfl

/-- C10 on the in-memory table holding one product with id 1: `PUT /produtos/999` is
answered 200 with `undefined`, `PUT /produtos/1` with the updated row. -/
theorem update_responds_200_witness :
    let mw : MemWorld :=
      ⟨[[("id", .num (jsInt 1)), ("nome", .str "Milk"), ("data_validade", .str "2024-01-08")]], 1, []⟩
    let body : Row := [("nome", .str "Oat milk"), ("data_validade", .str "2024-02-01")]
    (updateProduto memClients "999" body mw).response
        = some { status := 200, body := some .undefined } ∧
      ∃ p, (updateProduto memClients "1" body mw).response
          = some { status := 200, body := some (.obj p) } ∧
        getField p "nome" = .str "Oat milk" ∧ getField p "data_validade" = .str "2024-02-01" :=
  ⟨(update_responds_200 memClients
      ⟨[[("id", .num (jsInt 1)), ("nome", .str "Milk"), ("data_validade", .str "2024-01-08")]], 1, []⟩
      "999" [("nome", .str "Oat milk"), ("data_validade", .str "2024-02-01")] rfl rfl).2.2.2.2
      ⟨[[("id", .num (jsInt 1)), ("nome", .str "Milk"), ("data_validade", .str "2024-01-08")]], 1, []⟩
      (by decide),
   (update_responds_200 memClients
      ⟨[[("id", .num (jsInt 1)), ("nome", .str "Milk"), ("data_validade", .str "2024-01-08")]], 1, []⟩
      "1" [("nome", .str "Oat milk"), ("data_validade", .str "2024-02-01")] rfl rfl).2.2.2.1
      ⟨[[("id", .num (jsInt 1)), ("nome", .str "Milk"), ("data_validade", .str "2024-01-08")]], 1, []⟩
      ⟨_, List.mem_singleton.mpr rfl, by decide⟩⟩

/-- C10 as stated fails for a name that is present and not empty but falsy: with `nome`
the value `false` (and a date) the update of an id that matches no row is answered 400,
not 200, and so is the update of an id that matches a row. -/
theorem update_rejects_false_name :
    absentOrEmpty (getField [("nome", .bool false), ("data_validade", .str "2024-02-01")]
        "nome") = false ∧
      absentOrEmpty (getField [("nome", .bool false), ("data_validade", .str "2024-02-01")]
        "data_validade") = false ∧
      (updateProduto memClients "999"
        [("nome", .bool false), ("data_validade", .str "2024-02-01")]
        ⟨[[("id", .num (jsInt 1)), ("nome", .str "Milk"),
           ("data_validade", .str "2024-01-08")]], 1, []⟩).response
        = some { status := 400, body := some (.obj
            [("erro", .str "Nome e data_validade são obrigatórios.")]) } ∧
      (updateProduto memClients "1"
        [("nome", .bool false), ("data_validade", .str "2024-02-01")]
        ⟨[[("id", .num (jsInt 1)), ("nome", .str "Milk"),
           ("data_validade", .str "2024-01-08")]], 1, []⟩).response
        = some { status := 400, body := some (.obj
            [("erro", .str "Nome e data_validade são obrigatórios.")]) } :=
  ⟨rfl, rfl, rfl, rfl⟩

/-! ## Delete -/

/-- C7: delete makes no existence check: it issues the one delete of the rows whose `id`
equals the path parameter, and whenever that call reports no error the response is 204
with no body.  Over the in-memory table (whose delete never reports an error) this holds
for every id, matched or not, and a second delete of the same id is again answered 204 and
leaves the table as the first delete left it. -/
theorem delete_idempotent {σ : Type} (c : Clients σ) (w : σ) (mw : MemWorld) (id : String) :
    (deleteProduto c id w).trace = [.db (.delete "produtos" "id" id)] ∧
      ((c.db (.delete "produtos" "id" id) w).1.error = none →
        (deleteProduto c id w).response = some { status := 204, body := none }) ∧
      (deleteProduto memClients id mw).response = some { status := 204, body := none } ∧
      (deleteProduto memClients id mw).world.rows
        = mw.rows.filter (fun r => !rowMatches "id" id r) ∧
      (deleteProduto memClients id (deleteProduto memClients id mw).world).response
        = some { status := 204, body := none } ∧
      (deleteProduto memClients id (deleteProduto memClients id mw).world).world
        = (deleteProduto memClients id mw).world := by
  refine ⟨?_, ?_, rfl, rfl, rfl, ?_⟩
  · unfold deleteProduto
    simp only
    split <;> rfl
  · intro herr
    unfold deleteProduto
    simp only [herr]
  · show MemWorld.mk (List.filter (fun r => !rowMatches "id" id r)
        (List.filter (fun r => !rowMatches "id" id r) mw.rows)) mw.lastId mw.outbox
      = MemWorld.mk (List.filter (fun r => !rowMatches "id" id r) mw.rows) mw.lastId mw.outbox
    rw [List.filter_filter]
    simp

/-- C7 on the in-memory table holding one product with id 1, deleting the id 999. -/
theorem delete_idempotent_witness :
    (deleteProduto memClients "999"
      ⟨[[("id", .num (jsInt 1)), ("nome", .str "Milk"), ("data_validade", .str "2024-01-08")]], 1, []⟩
      ).response = some { status := 204, body := none } :=
  (delete_idempotent memClients
    ⟨[[("id", .num (jsInt 1)), ("nome", .str "Milk"), ("data_validade", .str "2024-01-08")]], 1, []⟩
    ⟨[], 0, []⟩ "999").2.1 rfl

/-! ## Errors of the clients -/

theorem respondFirst_error (code : Nat) (r : DbResult) (e : ClientError)
    (h : r.error = some e) : respondFirst code r = some (erroResponse 500 e.message) := by
  unfold respondFirst
  rw [h]

/-- C8, as the code has it: a store error with message `m` is answered 500 with the single
key `erro` holding exactly `m` by list, create, update and delete; the scan answers 500
with the single key `erro` holding `m` after the prefix `Erro no Supabase: ` for a store
error and after the prefix `Erro no Resend: ` for an email error, with no products in the
response. -/
theorem client_errors_answered_500 {σ : Type} (c : Clients σ) (w : σ) (e : ClientError) :
    ((c.db (.select "produtos" "*" none) w).1.error = some e →
      (listProdutos c w).response
        = some { status := 500, body := some (.obj [("erro", .str e.message)]) }) ∧
    (∀ body : Row, toBoolean (getField body "nome") = true →
      toBoolean (getField body "data_validade") = true →
      (c.db (.insert "produtos"
        [[("nome", getField body "nome"), ("data_validade", getField body "data_validade")]])
        w).1.error = some e →
      (createProduto c body w).response
        = some { status := 500, body := some (.obj [("erro", .str e.message)]) }) ∧
    (∀ (id : String) (body : Row), toBoolean (getField body "nome") = true →
      toBoolean (getField body "data_validade") = true →
      (c.db (.update "produtos"
        [("nome", getField body "nome"), ("data_validade", getField body "data_validade")]
        "id" id) w).1.error = some e →
      (updateProduto c id body w).response
        = some { status := 500, body := some (.obj [("erro", .str e.message)]) }) ∧
    (∀ id : String, (c.db (.delete "produtos" "id" id) w).1.error = some e →
      (deleteProduto c id w).response
        = some { status := 500, body := some (.obj [("erro", .str e.message)]) }) ∧
    (∀ (tza : LocalTZA) (now : Int),
      (c.db (alertQuery (dataAlvoString tza now)) w).1.error = some e →
      (sendAlerts c tza now w).response = some { status := 500, body := some (.obj
        [("erro", .str ("Erro no Supabase: " ++ e.message))]) }) ∧
    (∀ (tza : LocalTZA) (now : Int) (produtos : List Row) (w1 : σ),
      c.db (alertQuery (dataAlvoString tza now)) w
        = ({ data := some produtos, error := none }, w1) →
      1 ≤ produtos.length →
      (c.mail (alertEmail (dataAlvoString tza now) produtos) w1).1.error = some e →
      (sendAlerts c tza now w).response = some { status := 500, body := some (.obj
        [("erro", .str ("Erro no Resend: " ++ e.message))]) }) := by
  refine ⟨?_, ?_, ?_, ?_, ?_, ?_⟩
  · intro h
    unfold listProdutos
    simp only [h]
    rfl
  · intro body hn hd h
    rw [createProduto_valid c w body hn hd]
    exact respondFirst_error 201 _ e h
  · intro id body hn hd h
    rw [updateProduto_valid c w id body hn hd]
    exact respondFirst_error 200 _ e h
  · intro id h
    unfold deleteProduto
    simp only [h]
    rfl
  · intro tza now h
    unfold sendAlerts sendAlertsTry
    simp only [h]
    rfl
  · intro tza now produtos w1 hdb hN h
    have hlen : ¬ produtos.length = 0 := by omega
    unfold sendAlerts sendAlertsTry
    simp only [hdb, hlen, if_false, h]
    rfl

/-- C8 as amended, on a store that reports `boom` and on an email client that reports
`boom` after a store result of one row. -/
theorem client_errors_answered_500_witness :
    (listProdutos (brokenStore "boom") ()).response
        = some { status := 500, body := some (.obj [("erro", .str "boom")]) } ∧
      (sendAlerts (brokenMail [[("nome", .str "Milk")]] "boom") utcMinus12 0 ()).response
        = some { status := 500, body := some (.obj [("erro", .str "Erro no Resend: boom")]) } :=
  ⟨(client_errors_answered_500 (brokenStore "boom") () { message := "boom" }).1 rfl,
   (client_errors_answered_500 (brokenMail [[("nome", .str "Milk")]] "boom") ()
      { message := "boom" }).2.2.2.2.2 utcMinus12 0 [[("nome", .str "Milk")]] () rfl
      (by decide) rfl⟩

/-- C8 as stated fails for the scan: a store error with message `boom` is answered with
`erro` equal to `Erro no Supabase: boom`, which is not `boom`. -/
theorem scan_error_is_prefixed :
    (sendAlerts (brokenStore "boom") utcMinus12 0 ()).response
        = some { status := 500, body := some (.obj [("erro", .str "Erro no Supabase: boom")]) } ∧
      (sendAlerts (brokenStore "boom") utcMinus12 0 ()).response
        ≠ some { status := 500, body := some (.obj [("erro", .str "boom")]) } := by
  have h : (sendAlerts (brokenStore "boom") utcMinus12 0 ()).response
      = some { status := 500, body := some (.obj [("erro", .str "Erro no Supabase: boom")]) } :=
    rfl
  refine ⟨h, ?_⟩
  rw [h]
  intro hc
  simp at hc

/-! ## Startup -/

/-- Startup with any of the three settings unset or empty: an error line and exit code 1,
and no listener. -/
theorem startup_missing_setting (env : String → Option String)
    (h : envSet env "SUPABASE_URL" = none ∨ envSet env "SUPABASE_KEY" = none ∨
      envSet env "RESEND_API_KEY" = none) :
    startup env = [.consoleError "ERRO: Faltam variáveis de ambiente (.env)", .exit 1] ∧
      listenCalls (startup env) = 0 := by
  have hs : startup env = [.consoleError "ERRO: Faltam variáveis de ambiente (.env)", .exit 1] := by
    unfold startup
    rcases h with h | h | h
    · simp only [h]
    · cases h1 : envSet env "SUPABASE_URL" <;> simp only [h]
    · cases h1 : envSet env "SUPABASE_URL" <;> cases h2 : envSet env "SUPABASE_KEY" <;>
        simp only [h]
  rw [hs]
  exact ⟨rfl, rfl⟩

/-- Startup with the three settings present calls `listen` twice on the same port. -/
theorem startup_complete_listens_twice (env : String → Option String) (url key resendKey : String)
    (h1 : envSet env "SUPABASE_URL" = some url) (h2 : envSet env "SUPABASE_KEY" = some key)
    (h3 : envSet env "RESEND_API_KEY" = some resendKey) :
    listenCalls (startup env) = 2 := by
  unfold startup
  simp only [h1, h2, h3]
  rfl

/-- C9: with the three settings present and no `PORT`, startup calls `app.listen(3000)`
twice (lines 105 and 215), not once. -/
theorem startup_listens_twice :
    startup envComplete
        = [.createClient "https://example.supabase.co" "service-key", .newResend "re_key",
           .listen (.num (jsInt 3000)), .listen (.num (jsInt 3000))] ∧
      listenCalls (startup envComplete) = 2 :=
  ⟨rfl, rfl⟩

/-! ## Create, then scan -/

theorem sendAlerts_of_rows {σ : Type} (c : Clients σ) (tza : LocalTZA) (now : Int)
    (w w1 w2 : σ) (produtos : List Row) (d : JVal)
    (hdb : c.db (alertQuery (dataAlvoString tza now)) w
      = ({ data := some produtos, error := none }, w1))
    (hne : produtos ≠ [])
    (hmail : c.mail (alertEmail (dataAlvoString tza now) produtos) w1
      = ({ data := d, error := none }, w2)) :
    sendAlerts c tza now w = Outcome.mk w2
      [.db (alertQuery (dataAlvoString tza now)),
       .email (alertEmail (dataAlvoString tza now) produtos)]
      (some { status := 200, body := some (.obj
        [("mensagem", .str "Alertas processados e emails enviados!"),
         ("produtos", .arr (produtos.map .obj))]) }) := by
  have hlen : ¬ produtos.length = 0 := by
    intro h
    exact hne (List.length_eq_zero.mp h)
  unfold sendAlerts sendAlertsTry
  simp only [hdb, hlen, if_false, hmail]

theorem renderDate_ne_empty (cd : CivilDate) : renderDate cd ≠ "" := by
  intro h
  have hl := congrArg String.length h
  unfold renderDate at hl
  simp only [String.length_append] at hl
  have h1 : ("-" : String).length = 1 := rfl
  have h0 : ("" : String).length = 0 := rfl
  omega

theorem project_alert_row (id nome data_validade : JVal) :
    project "nome, data_validade"
        [("id", id), ("nome", nome), ("data_validade", data_validade)]
      = [("nome", nome), ("data_validade", data_validade)] := by
  have hs : splitColumns "nome, data_validade" = ["nome", "data_validade"] := by decide
  unfold project
  rw [if_neg (by decide), hs]
  simp [List.filter]

/-- C4, as the code has it: over the in-memory table and mailbox (no call reports an
error), for every non-empty name `n` and every clock reading whose target is inside the
range of `Date`, has a local time that no clock change skips, and falls in the year 1000
or later: creating the product `n` whose expiration date is the text `YYYY-MM-DD` of
today + 7 days is answered 201 with the row and its assigned id, and a scan run then on
the same clock reading is answered 200, sends exactly one email, and lists a product named
`n`. -/
theorem create_then_scan_finds_product (mw : MemWorld) (tza : LocalTZA) (now : Int)
    (n : String) (hn : n ≠ "")
    (hrange : |UTC tza (LocalTime tza now + 7 * msPerDay)| ≤ 8640000000000000)
    (hzone : LocalTime tza (UTC tza (LocalTime tza now + 7 * msPerDay))
      = LocalTime tza now + 7 * msPerDay)
    (hy1 : 1000 ≤ (addDays 7 (today tza now)).year) :
    let dv := renderDate (addDays 7 (today tza now))
    let created := createProduto memClients [("nome", .str n), ("data_validade", .str dv)] mw
    let scan := sendAlerts memClients tza now created.world
    (∃ id, absentOrEmpty id = false ∧
      created.response = some { status := 201, body := some (.obj
        [("id", id), ("nome", .str n), ("data_validade", .str dv)]) }) ∧
      (∃ produtos : List Row,
        scan.response = some { status := 200, body := some (.obj
          [("mensagem", .str "Alertas processados e emails enviados!"),
           ("produtos", .arr (produtos.map .obj))]) } ∧
        ∃ p ∈ produtos, getField p "nome" = .str n) ∧
      emailsSent scan.trace = 1 := by
  intro dv created scan
  have hdate := dataAlvoString_eq tza now hrange hzone hy1
  have hdv : dv ≠ "" := renderDate_ne_empty _
  have hbody_n : toBoolean (getField [("nome", JVal.str n), ("data_validade", JVal.str dv)]
      "nome") = true := by
    simp [getField, toBoolean, hn]
  have hbody_d : toBoolean (getField [("nome", JVal.str n), ("data_validade", JVal.str dv)]
      "data_validade") = true := by
    simp [getField, toBoolean, hdv]
  have hcreated : created = Outcome.mk
      { mw with
        rows := mw.rows ++
          [[("id", .num (jsInt ((mw.lastId : Int) + 1))), ("nome", .str n), ("data_validade", .str dv)]],
        lastId := mw.lastId + 1 }
      [.db (.insert "produtos" [[("nome", .str n), ("data_validade", .str dv)]])]
      (some { status := 201, body := some (.obj
        [("id", .num (jsInt ((mw.lastId : Int) + 1))), ("nome", .str n), ("data_validade", .str dv)]) }) := by
    show createProduto memClients _ mw = _
    rw [createProduto_valid memClients mw _ hbody_n hbody_d]
    simp [getField, memClients, memDb, assignIds, respondFirst, firstRow]
  have hmatch : rowMatches "data_validade" (dataAlvoString tza now)
      [("id", .num (jsInt ((mw.lastId : Int) + 1))), ("nome", .str n), ("data_validade", .str dv)]
      = true := by
    simp [rowMatches, getField, jsToString, hdate, dv]
  obtain ⟨hits, hhits⟩ : ∃ hits : List Row,
      created.world.rows.filter (rowMatches "data_validade" (dataAlvoString tza now))
        = hits ++ [[("id", .num (jsInt ((mw.lastId : Int) + 1))), ("nome", .str n),
            ("data_validade", .str dv)]] := by
    refine ⟨mw.rows.filter (rowMatches "data_validade" (dataAlvoString tza now)), ?_⟩
    rw [hcreated]
    simp only [List.filter_append, List.filter, hmatch]
  have hdb : memClients.db (alertQuery (dataAlvoString tza now)) created.world
      = ({ data := some (hits.map (project "nome, data_validade")
            ++ [[("nome", .str n), ("data_validade", .str dv)]]), error := none },
          created.world) := by
    simp only [memClients, alertQuery, memDb, hhits, List.map_append, List.map_cons,
      List.map_nil, project_alert_row]
  have hscan := sendAlerts_of_rows memClients tza now created.world created.world
    { created.world with outbox := created.world.outbox ++
        [alertEmail (dataAlvoString tza now) (hits.map (project "nome, data_validade")
            ++ [[("nome", .str n), ("data_validade", .str dv)]])] }
    _ (.obj [("id", .str "sent")]) hdb (by simp) rfl
  refine ⟨⟨.num (jsInt ((mw.lastId : Int) + 1)), rfl, ?_⟩,
    ⟨hits.map (project "nome, data_validade")
      ++ [[("nome", .str n), ("data_validade", .str dv)]], ?_, ?_⟩, ?_⟩
  · rw [hcreated]
  · show (sendAlerts memClients tza now created.world).response = _
    rw [hscan]
  · exact ⟨[("nome", .str n), ("data_validade", .str dv)], by simp, by simp [getField]⟩
  · show emailsSent (sendAlerts memClients tza now created.world).trace = 1
    rw [hscan]
    rfl

/-- C4 for `Milk` on an empty table, the clock at noon UTC of 2024-01-01 in UTC-12: the
expiration date is `2024-01-08`. -/
theorem create_then_scan_finds_product_witness :
    renderDate (addDays 7 (today utcMinus12 1704110400000)) = "2024-01-08" ∧
      emailsSent (sendAlerts memClients utcMinus12 1704110400000
        (createProduto memClients
          [("nome", .str "Milk"),
           ("data_validade", .str (renderDate (addDays 7 (today utcMinus12 1704110400000))))]
          ⟨[], 0, []⟩).world).trace = 1 :=
  ⟨by decide,
   (create_then_scan_finds_product ⟨[], 0, []⟩ utcMinus12 1704110400000 "Milk" (by decide)
      (by simp [UTC, LocalTime, utcMinus12, msPerDay, abs_le]) (by decide) (by decide)).2.2⟩

set_option maxRecDepth 100000 in
/-- C4 as stated fails at three clock readings, on the empty table with the name `Milk`:
the product is created with the text of today + 7 days and the scan on the same clock
finds no product and sends no email.  In `Pacific/Apia` at local noon of 2011-12-23 the
product carries `2011-12-30` and the scan asks for `2011-12-31`; at the last instant of
the range of `Date` the scan asks for `NaN-NaN-NaN`; at local 0001-01-01 in UTC the
product carries `0001-01-08` and the scan asks for `1-01-08`. -/
theorem create_then_scan_misses_product :
    emailsSent (sendAlerts memClients apia 1324677600000
        (createProduto memClients
          [("nome", .str "Milk"),
           ("data_validade", .str (renderDate (addDays 7 (today apia 1324677600000))))]
          ⟨[], 0, []⟩).world).trace = 0 ∧
      (sendAlerts memClients apia 1324677600000
        (createProduto memClients
          [("nome", .str "Milk"),
           ("data_validade", .str (renderDate (addDays 7 (today apia 1324677600000))))]
          ⟨[], 0, []⟩).world).response
        = some { status := 200, body := some (.obj
            [("mensagem", .str "Nenhum produto vencendo na data-alvo.")]) } ∧
      emailsSent (sendAlerts memClients utcZone 8640000000000000
        (createProduto memClients
          [("nome", .str "Milk"),
           ("data_validade", .str (renderDate (addDays 7 (today utcZone 8640000000000000))))]
          ⟨[], 0, []⟩).world).trace = 0 ∧
      emailsSent (sendAlerts memClients utcZone (-62135596800000)
        (createProduto memClients
          [("nome", .str "Milk"),
           ("data_validade", .str (renderDate (addDays 7 (today utcZone (-62135596800000)))))]
          ⟨[], 0, []⟩).world).trace = 0 := by
  refine ⟨?_, ?_, ?_, ?_⟩
  · decide
  · rfl
  · decide
  · decide

end AppValidade
